import Mathlib

/-!
Verification development for the post-update pipeline of a WordPress REST
compatibility layer written in TypeScript.

The definitions below are a shallow embedding of the TypeScript sources:

* src/lib/services/post-update.service.ts   (orchestrator)
* src/lib/services/post-response.service.ts (response builder)
* src/lib/validation/post-update-schema.ts  (zod request schema)
* src/lib/validation/slug.ts                (slug uniqueness)
* src/config/database.ts second part        (validateAndNormalizeStatus)
* src/lib/auth/capabilities.ts              (capability mapping)
* src/lib/db/queries/{posts,postmeta,terms,options,users}.ts
* the connection/transaction wrapper (withTransaction) and the route handler.

Modelling conventions:

* The relational store is a record of lists (`Db`); SQL queries become list
  scans translated clause by clause from the query strings.
* Machine numbers are `Int`/`Nat`; MySQL datetimes stay the strings the code
  stores; JavaScript epoch values are `Int` milliseconds.
* The `php-serialize` boundary codec is abstracted: an option value is either
  a string, a number, or an integer list (the only shapes the code round
  trips); the sticky registry is stored as the integer-list shape.
* The site gmt_offset is modelled as an integer number of hours (the code
  reads it with parseFloat; fractional offsets only rescale the arithmetic).
* JavaScript Date parsing of the timezone-less ISO strings used by this API
  is modelled as UTC parsing of "YYYY-MM-DDTHH:MM:SS" (optionally "Z"),
  with the same range validation JS applies (invalid components give NaN).
* Fallible steps return `Except WpErr`; the code never throws inside the
  transaction callback, every failure is a returned error value.
-/

namespace WPost

/-- A REST error value: `WpError` from the error module, with `data.status`
flattened into `status`. -/
structure WpErr where
  code : String
  message : String
  status : Nat
deriving Repr, DecidableEq

/-- A title/content/excerpt field of the request body: either a bare string
or an object carrying a `raw` property (the zod union in the schema). -/
inductive TextField where
  | plain (s : String)
  | rawObj (s : String)
deriving Repr, DecidableEq

/-- `extractRawValue` from post-update-schema.ts. -/
def extractRawValue : Option TextField → Option String
  | none => none
  | some (.plain s) => some s
  | some (.rawObj s) => some s

/-- The validated request body (`PostUpdateInput`, the zod parse output).
`date`/`date_gmt` are `Option (Option String)`: the outer layer is
field presence, the inner `none` is an explicit JSON `null`.  Meta values are
`Option String`: `none` models a `null` entry (skipped by the meta loop). -/
structure PostUpdateInput where
  title : Option TextField := none
  content : Option TextField := none
  excerpt : Option TextField := none
  status : Option String := none
  date : Option (Option String) := none
  date_gmt : Option (Option String) := none
  slug : Option String := none
  author : Option Int := none
  password : Option String := none
  featured_media : Option Int := none
  sticky : Option Bool := none
  template : Option String := none
  format : Option String := none
  comment_status : Option String := none
  ping_status : Option String := none
  parent : Option Int := none
  menu_order : Option Int := none
  categories : Option (List Int) := none
  tags : Option (List Int) := none
  meta : Option (List (String × Option String)) := none
deriving Repr, DecidableEq

/-- An authenticated principal (`AuthenticatedUser`).  `caps` is the set of
capability names mapped to `true` in `allcaps`; the additive-only resolution
of part_001 never stores `false` entries that matter, so a list of granted
names is a faithful model of the record. -/
structure AuthenticatedUser where
  id : Int
  caps : List String
deriving Repr, DecidableEq

/-- Lookup in `user.allcaps[cap] === true`. -/
def AuthenticatedUser.hasCap (u : AuthenticatedUser) (c : String) : Bool :=
  u.caps.contains c

/-- A `wp_posts` row (`WpPostRow`). -/
structure PostRow where
  ID : Int
  post_author : Int
  post_date : String
  post_date_gmt : String
  post_content : String
  post_title : String
  post_excerpt : String
  post_status : String
  comment_status : String
  ping_status : String
  post_password : String
  post_name : String
  to_ping : String
  pinged : String
  post_modified : String
  post_modified_gmt : String
  post_content_filtered : String
  post_parent : Int
  guid : String
  menu_order : Int
  post_type : String
  post_mime_type : String
  comment_count : Int
deriving Repr, DecidableEq

/-- The column-level update set (`WpPostUpdateData`): only defined fields
are written. -/
structure WpPostUpdateData where
  post_title : Option String := none
  post_content : Option String := none
  post_excerpt : Option String := none
  post_status : Option String := none
  post_date : Option String := none
  post_date_gmt : Option String := none
  post_name : Option String := none
  post_author : Option Int := none
  post_password : Option String := none
  post_parent : Option Int := none
  menu_order : Option Int := none
  comment_status : Option String := none
  ping_status : Option String := none
deriving Repr, DecidableEq

/-- A `wp_postmeta` row; list order models meta_id order. -/
structure MetaRow where
  post_id : Int
  meta_key : String
  meta_value : String
deriving Repr, DecidableEq

/-- A `wp_terms` row. -/
structure TermRow where
  term_id : Int
  name : String
  slug : String
deriving Repr, DecidableEq

/-- A `wp_term_taxonomy` row. -/
structure TermTaxRow where
  term_taxonomy_id : Int
  term_id : Int
  taxonomy : String
  count : Int
deriving Repr, DecidableEq

/-- A `wp_term_relationships` row. -/
structure TermRelRow where
  object_id : Int
  term_taxonomy_id : Int
deriving Repr, DecidableEq

/-- An option value at the php-serialize codec boundary. -/
inductive OptVal where
  | str (s : String)
  | num (n : Int)
  | intList (l : List Int)
deriving Repr, DecidableEq

/-- The relational store visible to the pipeline. -/
structure Db where
  posts : List PostRow
  userIds : List Int
  postmeta : List MetaRow
  terms : List TermRow
  termTaxonomy : List TermTaxRow
  termRelationships : List TermRelRow
  options : List (String × OptVal)
deriving Repr, DecidableEq

/-! ### Date handling (part_000: restGetDateWithGmt, mysqlToRfc3339) -/

/-- Gregorian leap-year test, as implemented by the JS Date object. -/
def isLeapYear (y : Int) : Bool :=
  y % 4 == 0 && (y % 100 != 0 || y % 400 == 0)

/-- Days in a month of the proleptic Gregorian calendar. -/
def daysInMonth (y : Int) (m : Nat) : Nat :=
  if m == 2 then (if isLeapYear y then 29 else 28)
  else if m == 4 || m == 6 || m == 9 || m == 11 then 30
  else 31

/-- Days since the Unix epoch of a civil date (standard civil-from-days
conversion; truncated integer division as in the reference algorithm). -/
def daysFromCivil (y : Int) (m d : Nat) : Int :=
  let y' : Int := if m ≤ 2 then y - 1 else y
  let era : Int := (if y' ≥ 0 then y' else y' - 399) / 400
  let yoe : Nat := (y' - era * 400).toNat
  let mp : Nat := if m > 2 then m - 3 else m + 9
  let doy : Nat := (153 * mp + 2) / 5 + d - 1
  let doe : Nat := yoe * 365 + yoe / 4 - yoe / 100 + doy
  era * 146097 + (doe : Int) - 719468

/-- Civil date from days since the Unix epoch (inverse conversion). -/
def civilFromDays (z₀ : Int) : Int × Nat × Nat :=
  let z : Int := z₀ + 719468
  let era : Int := (if z ≥ 0 then z else z - 146096) / 146097
  let doe : Nat := (z - era * 146097).toNat
  let yoe : Nat := (doe - doe / 1460 + doe / 36524 - doe / 146096) / 365
  let y : Int := (yoe : Int) + era * 400
  let doy : Nat := doe - (365 * yoe + yoe / 4 - yoe / 100)
  let mp : Nat := (5 * doy + 2) / 153
  let d : Nat := doy - (153 * mp + 2) / 5 + 1
  let m : Nat := if mp < 10 then mp + 3 else mp - 9
  (if m ≤ 2 then y + 1 else y, m, d)

/-- String(n).padStart(2, "0") for a calendar component. -/
def pad2 (n : Nat) : String :=
  if n < 10 then "0" ++ toString n else toString n

/-- formatMysqlDatetime / the inline RFC 3339 formatting of the response
builder: UTC components of an epoch-milliseconds value, joined with the
given separator. -/
def formatEpochMs (sep : String) (ms : Int) : String :=
  let day : Int := Int.fdiv ms 86400000
  let rem : Nat := (ms - day * 86400000).toNat
  let ymd := civilFromDays day
  let h : Nat := rem / 3600000
  let mi : Nat := rem % 3600000 / 60000
  let s : Nat := rem % 60000 / 1000
  toString ymd.1 ++ "-" ++ pad2 ymd.2.1 ++ "-" ++ pad2 ymd.2.2 ++ sep ++
    pad2 h ++ ":" ++ pad2 mi ++ ":" ++ pad2 s

/-- formatMysqlDatetime from part_000: "YYYY-MM-DD HH:mm:ss". -/
def formatMysqlDatetime (ms : Int) : String := formatEpochMs " " ms

/-- Decimal value of an ASCII digit. -/
def digitVal (c : Char) : Option Nat :=
  if c.isDigit then some (c.toNat - 48) else none

/-- Parse exactly `n` decimal digits, returning the value and the rest. -/
def parseFixedNat (acc : Nat) : Nat → List Char → Option (Nat × List Char)
  | 0, cs => some (acc, cs)
  | _ + 1, [] => none
  | n + 1, c :: cs =>
    match digitVal c with
    | some d => parseFixedNat (acc * 10 + d) n cs
    | none => none

/-- Consume one expected character. -/
def expectChar (c : Char) : List Char → Option (List Char)
  | [] => none
  | x :: xs => if x = c then some xs else none

/-- Model of `new Date(s).getTime()` on the timezone-less ISO strings used
by this API: parses "YYYY-MM-DDTHH:MM:SS" (optionally suffixed "Z") at UTC
and rejects out-of-range components, yielding epoch milliseconds. -/
def jsParseDate (s : String) : Option Int :=
  match parseFixedNat 0 4 s.toList with
  | none => none
  | some (y, cs) =>
    match expectChar '-' cs with
    | none => none
    | some cs =>
      match parseFixedNat 0 2 cs with
      | none => none
      | some (mo, cs) =>
        match expectChar '-' cs with
        | none => none
        | some cs =>
          match parseFixedNat 0 2 cs with
          | none => none
          | some (d, cs) =>
            match expectChar 'T' cs with
            | none => none
            | some cs =>
              match parseFixedNat 0 2 cs with
              | none => none
              | some (h, cs) =>
                match expectChar ':' cs with
                | none => none
                | some cs =>
                  match parseFixedNat 0 2 cs with
                  | none => none
                  | some (mi, cs) =>
                    match expectChar ':' cs with
                    | none => none
                    | some cs =>
                      match parseFixedNat 0 2 cs with
                      | none => none
                      | some (sec, cs) =>
                        let rest := match cs with
                          | ['Z'] => []
                          | other => other
                        if rest.isEmpty && Nat.ble 1 mo && Nat.ble mo 12 &&
                            Nat.ble 1 d && Nat.ble d (daysInMonth (y : Int) mo) &&
                            Nat.ble h 23 && Nat.ble mi 59 && Nat.ble sec 59 then
                          some ((((daysFromCivil (y : Int) mo d * 24 + (h : Int)) * 60
                            + (mi : Int)) * 60 + (sec : Int)) * 1000)
                        else
                          none

/-- restGetDateWithGmt from part_000: returns (local, utc) MySQL datetimes,
or none when the date string does not parse. -/
def restGetDateWithGmt (dateString : String) (isUtc : Bool) (gmtOffset : Int) :
    Option (String × String) :=
  match jsParseDate dateString with
  | none => none
  | some t =>
    if isUtc then
      some (formatMysqlDatetime (t + gmtOffset * 60 * 60 * 1000),
            formatMysqlDatetime t)
    else
      some (formatMysqlDatetime t,
            formatMysqlDatetime (t - gmtOffset * 60 * 60 * 1000))

/-- JS String.replace(" ", "T"): replace the first space only. -/
def replaceFirstSpaceT : List Char → List Char
  | [] => []
  | c :: cs => if c = ' ' then 'T' :: cs else c :: replaceFirstSpaceT cs

/-- mysqlToRfc3339 from part_000: none for the empty string or the zero-date
sentinel, otherwise the datetime with the space turned into a "T". -/
def mysqlToRfc3339 (dt : String) : Option String :=
  if dt = "" ∨ dt = "0000-00-00 00:00:00" then none
  else some ⟨replaceFirstSpaceT dt.toList⟩

/-! ### Persistence adapters (db/queries) -/

/-- getPostById: SELECT * FROM wp_posts WHERE ID = ?. -/
def getPostById (db : Db) (id : Int) : Option PostRow :=
  db.posts.find? (fun p => p.ID == id)

/-- userExists: SELECT 1 FROM wp_users WHERE ID = ? LIMIT 1. -/
def userExists (db : Db) (uid : Int) : Bool :=
  db.userIds.contains uid

/-- getOption: SELECT option_value FROM wp_options WHERE option_name = ?. -/
def getOption (db : Db) (name : String) : Option OptVal :=
  (db.options.find? (fun o => o.1 == name)).map (fun o => o.2)

/-- Replace the value of the first entry with the given option name. -/
def replaceOption : List (String × OptVal) → String → OptVal → List (String × OptVal)
  | [], _, _ => []
  | o :: os, name, v =>
    if o.1 == name then (o.1, v) :: os else o :: replaceOption os name v

/-- updateOption: INSERT ... ON DUPLICATE KEY UPDATE (upsert by name). -/
def updateOption (db : Db) (name : String) (v : OptVal) : Db :=
  if db.options.any (fun o => o.1 == name) then
    { db with options := replaceOption db.options name v }
  else
    { db with options := db.options ++ [(name, v)] }

/-- getStickyPosts: unserialize the sticky_posts option and keep the
positive numbers.  A missing or non-list value yields the empty list. -/
def getStickyPosts (db : Db) : List Int :=
  match getOption db "sticky_posts" with
  | some (.intList l) => l.filter (fun n => 0 < n)
  | _ => []

/-- setStickyPosts: serialize the id list back into the option. -/
def setStickyPosts (db : Db) (l : List Int) : Db :=
  updateOption db "sticky_posts" (.intList l)

/-- isSticky: membership in the deserialized registry. -/
def isSticky (db : Db) (pid : Int) : Bool :=
  (getStickyPosts db).contains pid

/-- The gmt_offset read of the service: parseFloat of the option value,
0 when the option is absent (offset modelled as integral hours). -/
def getGmtOffset (db : Db) : Int :=
  match getOption db "gmt_offset" with
  | some (.num n) => n
  | _ => 0

/-- The siteurl read of the service, with the "http://localhost" fallback
for an absent or empty value. -/
def getSiteUrl (db : Db) : String :=
  match getOption db "siteurl" with
  | some (.str s) => if s == "" then "http://localhost" else s
  | _ => "http://localhost"

/-- getPostMeta: first row for (post_id, meta_key). -/
def getPostMeta (db : Db) (pid : Int) (key : String) : Option String :=
  (db.postmeta.find? (fun r => r.post_id == pid && r.meta_key == key)).map
    (fun r => r.meta_value)

/-- getAllPostMeta: key/value pairs for a post, first value per key. -/
def getAllPostMeta (db : Db) (pid : Int) : List (String × String) :=
  (db.postmeta.filter (fun r => r.post_id == pid)).foldl
    (fun acc r =>
      if acc.any (fun kv => kv.1 == r.meta_key) then acc
      else acc ++ [(r.meta_key, r.meta_value)])
    []

/-- Replace the value of the first meta row matching (post_id, meta_key). -/
def replaceFirstMetaRow : List MetaRow → Int → String → String → List MetaRow
  | [], _, _, _ => []
  | r :: rs, pid, key, v =>
    if r.post_id == pid && r.meta_key == key then { r with meta_value := v } :: rs
    else r :: replaceFirstMetaRow rs pid key v

/-- updatePostMeta: update the first existing row for the key, else insert. -/
def updatePostMeta (db : Db) (pid : Int) (key v : String) : Db :=
  if db.postmeta.any (fun r => r.post_id == pid && r.meta_key == key) then
    { db with postmeta := replaceFirstMetaRow db.postmeta pid key v }
  else
    { db with postmeta := db.postmeta ++ [⟨pid, key, v⟩] }

/-- deletePostMeta: delete every row for (post_id, meta_key). -/
def deletePostMeta (db : Db) (pid : Int) (key : String) : Db :=
  { db with postmeta :=
      db.postmeta.filter (fun r => !(r.post_id == pid && r.meta_key == key)) }

/-- termExists: join of wp_terms and wp_term_taxonomy on term_id filtered
by taxonomy. -/
def termExists (db : Db) (tid : Int) (tax : String) : Bool :=
  db.terms.any (fun t => t.term_id == tid) &&
    db.termTaxonomy.any (fun tt => tt.term_id == tid && tt.taxonomy == tax)

/-- getPostFormatTermId: term id of slug "post-format-&lt;format&gt;" in the
post_format taxonomy. -/
def getPostFormatTermId (db : Db) (format : String) : Option Int :=
  let termSlug := "post-format-" ++ format
  (db.terms.find? (fun t =>
    t.slug == termSlug &&
      db.termTaxonomy.any (fun tt =>
        tt.term_id == t.term_id && tt.taxonomy == "post_format"))).map
    (fun t => t.term_id)

/-- getObjectTerms: the three-way join of relationships, term_taxonomy and
terms for one object and taxonomy, in relationship order. -/
def getObjectTerms (db : Db) (oid : Int) (tax : String) : List TermRow :=
  db.termRelationships.filterMap (fun tr =>
    if tr.object_id == oid then
      match db.termTaxonomy.find? (fun tt =>
          tt.term_taxonomy_id == tr.term_taxonomy_id && tt.taxonomy == tax) with
      | some tt => db.terms.find? (fun t => t.term_id == tt.term_id)
      | none => none
    else none)

/-- One iteration of the insert loop of setObjectTerms: resolve the term
id in the taxonomy (skipping unresolvable ids), insert the relationship
unless it already exists, and increment the term count. -/
def setObjectTermsInsert (oid : Int) (tax : String) (db : Db) (termId : Int) :
    Db :=
  match db.termTaxonomy.find? (fun tt =>
      tt.term_id == termId && tt.taxonomy == tax) with
  | none => db
  | some tt =>
    let db :=
      if db.termRelationships.any (fun tr =>
          tr.object_id == oid && tr.term_taxonomy_id == tt.term_taxonomy_id) then
        db
      else
        { db with termRelationships :=
            db.termRelationships ++ [⟨oid, tt.term_taxonomy_id⟩] }
    { db with termTaxonomy := db.termTaxonomy.map (fun t2 =>
        if t2.term_taxonomy_id == tt.term_taxonomy_id then
          { t2 with count := t2.count + 1 }
        else t2) }

/-- setObjectTerms: replace the whole assignment set of one taxonomy —
collect current term_taxonomy_ids, delete those relationships, decrement
their counts (floored at 0), then insert each resolvable new term id and
increment its count; unresolvable ids are skipped. -/
def setObjectTerms (db : Db) (oid : Int) (termIds : List Int) (tax : String) : Db :=
  let currentTtIds := db.termRelationships.filterMap (fun tr =>
    if tr.object_id == oid then
      match db.termTaxonomy.find? (fun tt =>
          tt.term_taxonomy_id == tr.term_taxonomy_id && tt.taxonomy == tax) with
      | some tt => some tt.term_taxonomy_id
      | none => none
    else none)
  let db :=
    { db with
      termRelationships := db.termRelationships.filter (fun tr =>
        !(tr.object_id == oid && currentTtIds.contains tr.term_taxonomy_id)),
      termTaxonomy := db.termTaxonomy.map (fun tt =>
        if currentTtIds.contains tt.term_taxonomy_id then
          { tt with count := max (tt.count - 1) 0 }
        else tt) }
  termIds.foldl (setObjectTermsInsert oid tax) db

/-- checkSlugExists: a row with the slug, type and parent other than the
excluded id exists. -/
def checkSlugExists (db : Db) (slug ty : String) (excludeId parent : Int) : Bool :=
  db.posts.any (fun p =>
    p.post_name == slug && p.post_type == ty && p.ID != excludeId &&
      p.post_parent == parent)

/-- isValidAttachment: the id names a row of post_type "attachment". -/
def isValidAttachment (db : Db) (aid : Int) : Bool :=
  db.posts.any (fun p => p.ID == aid && p.post_type == "attachment")

/-! ### updatePost: dynamic SET clause over the provided fields -/

/-- First half of the fieldMap iteration of updatePost (title through
name), applying each provided field in declaration order. -/
def applyClausesA (d : WpPostUpdateData) (r : PostRow) : PostRow :=
  let r := match d.post_title with
    | some v => { r with post_title := v }
    | none => r
  let r := match d.post_content with
    | some v => { r with post_content := v }
    | none => r
  let r := match d.post_excerpt with
    | some v => { r with post_excerpt := v }
    | none => r
  let r := match d.post_status with
    | some v => { r with post_status := v }
    | none => r
  let r := match d.post_date with
    | some v => { r with post_date := v }
    | none => r
  let r := match d.post_date_gmt with
    | some v => { r with post_date_gmt := v }
    | none => r
  match d.post_name with
  | some v => { r with post_name := v }
  | none => r

/-- Second half of the fieldMap iteration (author through ping_status),
followed by the unconditional refresh of both modified timestamps. -/
def applyClausesB (d : WpPostUpdateData) (nowL nowU : String) (r : PostRow) : PostRow :=
  let r := match d.post_author with
    | some v => { r with post_author := v }
    | none => r
  let r := match d.post_password with
    | some v => { r with post_password := v }
    | none => r
  let r := match d.post_parent with
    | some v => { r with post_parent := v }
    | none => r
  let r := match d.menu_order with
    | some v => { r with menu_order := v }
    | none => r
  let r := match d.comment_status with
    | some v => { r with comment_status := v }
    | none => r
  let r := match d.ping_status with
    | some v => { r with ping_status := v }
    | none => r
  let r := { r with post_modified := nowL }
  { r with post_modified_gmt := nowU }

/-- The row transformation of one UPDATE statement of updatePost. -/
def applyUpdateRow (r : PostRow) (d : WpPostUpdateData) (nowL nowU : String) : PostRow :=
  applyClausesB d nowL nowU (applyClausesA d r)

/-- updatePost: apply the assembled SET clause to the matching row;
the boolean is affectedRows > 0 (MySQL reports rows actually changed). -/
def updatePost (db : Db) (id : Int) (d : WpPostUpdateData) (nowL nowU : String) :
    Db × Bool :=
  ({ db with posts := db.posts.map (fun p =>
      if p.ID == id then applyUpdateRow p d nowL nowU else p) },
   db.posts.any (fun p => p.ID == id && applyUpdateRow p d nowL nowU != p))

/-! ### Slug uniqueness (validation/slug.ts) -/

/-- The n-th slug candidate: the desired slug itself, then suffixes
"-2", "-3", ... exactly as generated by the uniquePostSlug loop. -/
def slugCandidate (desired : String) : Nat → String
  | 0 => desired
  | n + 1 => desired ++ "-" ++ toString (n + 2)

/-- The while loop of uniquePostSlug, bounded by fuel: try candidates in
order until one is free.  The source loops unboundedly; any fuel larger
than the number of stored posts is enough because the candidates are
pairwise distinct strings. -/
def uniquePostSlugAux (db : Db) (desired ty : String) (pid parent : Int) :
    Nat → Nat → String
  | 0, n => slugCandidate desired n
  | fuel + 1, n =>
    if checkSlugExists db (slugCandidate desired n) ty pid parent then
      uniquePostSlugAux db desired ty pid parent fuel (n + 1)
    else
      slugCandidate desired n

/-- uniquePostSlug: the postStatus argument is accepted (the caller passes
"publish" for draft/pending) but, like the source, never used by the
uniqueness query. -/
def uniquePostSlug (fuel : Nat) (db : Db) (desired : String) (pid : Int)
    (_postStatus ty : String) (parent : Int) : String :=
  uniquePostSlugAux db desired ty pid parent fuel 0

/-! ### Capabilities (auth/capabilities.ts) -/

/-- The meta capabilities needing object context. -/
def metaCaps : List String := ["edit_post", "delete_post", "read_post"]

/-- mapMetaCap, edit_post case: the primitive capabilities required to edit
a post, depending on ownership and status. -/
def mapMetaCap (cap : String) (user : AuthenticatedUser) (post : PostRow) :
    List String :=
  if cap == "edit_post" then
    if post.post_author == user.id then
      if post.post_status == "publish" || post.post_status == "future" then
        ["edit_published_posts"]
      else if post.post_status == "trash" then
        ["edit_posts"]
      else
        ["edit_posts"]
    else
      let caps := ["edit_others_posts"]
      if post.post_status == "publish" || post.post_status == "future" then
        caps ++ ["edit_published_posts"]
      else if post.post_status == "private" then
        caps ++ ["edit_private_posts"]
      else
        caps
  else
    [cap]

/-- userCan: meta capabilities with object context require all mapped
primitives; otherwise a direct allcaps lookup. -/
def userCan (user : AuthenticatedUser) (cap : String) (post : Option PostRow) :
    Bool :=
  match post with
  | some p =>
    if metaCaps.contains cap then
      (mapMetaCap cap user p).all (fun c => user.hasCap c)
    else
      user.hasCap cap
  | none => user.hasCap cap

/-- checkIsPostTypeAllowed: the REST-exposed post types. -/
def checkIsPostTypeAllowed (ty : String) : Bool :=
  ["post", "page", "attachment"].contains ty

/-- checkUpdatePermission: type allowed and edit_post granted. -/
def checkUpdatePermission (user : AuthenticatedUser) (post : PostRow) : Bool :=
  checkIsPostTypeAllowed post.post_type && userCan user "edit_post" (some post)

/-! ### Status normalization (validateAndNormalizeStatus) -/

/-- validateAndNormalizeStatus: draft/pending pass, private/publish/future
require publish_posts (denial status depends on edit_posts), anything else
falls back to "draft". -/
def validateAndNormalizeStatus (postStatus : String) (user : AuthenticatedUser) :
    Except WpErr String :=
  if postStatus == "draft" || postStatus == "pending" then
    .ok postStatus
  else if postStatus == "private" then
    if !user.hasCap "publish_posts" then
      .error ⟨"rest_cannot_publish",
        "Sorry, you are not allowed to create private posts in this post type.",
        if user.hasCap "edit_posts" then 403 else 401⟩
    else
      .ok postStatus
  else if postStatus == "publish" || postStatus == "future" then
    if !user.hasCap "publish_posts" then
      .error ⟨"rest_cannot_publish",
        "Sorry, you are not allowed to publish posts in this post type.",
        if user.hasCap "edit_posts" then 403 else 401⟩
    else
      .ok postStatus
  else
    .ok "draft"

/-! ### Permission checks of the update flow (post-update.service.ts) -/

/-- checkAssignTermsPermission: non-empty category/tag lists require the
assign or manage capability of the taxonomy, falling back to edit_posts.
The per-term termExists loop of the source reads and discards its result,
so it is omitted. -/
def checkAssignTermsPermission (body : PostUpdateInput)
    (user : AuthenticatedUser) : Bool :=
  let catOk := match body.categories with
    | some l =>
      if l.length > 0 then
        user.hasCap "assign_categories" || user.hasCap "manage_categories" ||
          user.hasCap "edit_posts"
      else true
    | none => true
  let tagOk := match body.tags with
    | some l =>
      if l.length > 0 then
        user.hasCap "assign_post_tags" || user.hasCap "manage_post_tags" ||
          user.hasCap "edit_posts"
      else true
    | none => true
  catOk && tagOk

/-- checkPermissions: the four update-level checks in sequence, each with
its own 403 error. -/
def checkPermissions (post : PostRow) (body : PostUpdateInput)
    (user : AuthenticatedUser) : Option WpErr :=
  if !checkUpdatePermission user post then
    some ⟨"rest_cannot_edit", "Sorry, you are not allowed to edit this post.", 403⟩
  else if (match body.author with
      | some a => a != user.id
      | none => false) && !user.hasCap "edit_others_posts" then
    some ⟨"rest_cannot_edit_others",
      "Sorry, you are not allowed to update posts as this user.", 403⟩
  else if body.sticky == some true && !user.hasCap "edit_others_posts" &&
      !user.hasCap "publish_posts" then
    some ⟨"rest_cannot_assign_sticky",
      "Sorry, you are not allowed to make posts sticky.", 403⟩
  else if !checkAssignTermsPermission body user then
    some ⟨"rest_cannot_assign_term",
      "Sorry, you are not allowed to assign the provided terms.", 403⟩
  else
    none

/-! ### Field preparation (prepareItemForDatabase) -/

/-- The zero-date sentinel. -/
def zeroDate : String := "0000-00-00 00:00:00"

/-- Title/content/excerpt extraction (the first section of
prepareItemForDatabase). -/
def prepareText (body : PostUpdateInput) : WpPostUpdateData :=
  let data : WpPostUpdateData := {}
  let data := match extractRawValue body.title with
    | some t => { data with post_title := some t }
    | none => data
  let data := match extractRawValue body.content with
    | some c => { data with post_content := some c }
    | none => data
  match extractRawValue body.excerpt with
  | some e => { data with post_excerpt := some e }
  | none => data

/-- The status section: only a status differing from the current one goes
through the normalizer. -/
def prepareStatus (body : PostUpdateInput) (existingPost : PostRow)
    (user : AuthenticatedUser) (data : WpPostUpdateData) :
    Except WpErr WpPostUpdateData :=
  match body.status with
  | some st =>
    if st != existingPost.post_status then
      match validateAndNormalizeStatus st user with
      | .error e => .error e
      | .ok s => .ok { data with post_status := some s }
    else .ok data
  | none => .ok data

/-- The date section: date takes precedence over date_gmt; null resets both
columns to the zero-date sentinel; an unparseable date is ignored. -/
def prepareDates (db : Db) (body : PostUpdateInput)
    (data : WpPostUpdateData) : WpPostUpdateData :=
  match body.date with
  | some none =>
    { data with post_date := some zeroDate, post_date_gmt := some zeroDate }
  | some (some ds) =>
    (match restGetDateWithGmt ds false (getGmtOffset db) with
     | some lu => { data with post_date := some lu.1, post_date_gmt := some lu.2 }
     | none => data)
  | none =>
    match body.date_gmt with
    | some none =>
      { data with post_date := some zeroDate, post_date_gmt := some zeroDate }
    | some (some ds) =>
      (match restGetDateWithGmt ds true (getGmtOffset db) with
       | some lu => { data with post_date := some lu.1, post_date_gmt := some lu.2 }
       | none => data)
    | none => data

/-- The slug section. -/
def prepareSlug (body : PostUpdateInput) (data : WpPostUpdateData) :
    WpPostUpdateData :=
  match body.slug with
  | some s => { data with post_name := some s }
  | none => data

/-- The author section: reassignment to a different account requires the
account to exist. -/
def prepareAuthor (db : Db) (body : PostUpdateInput)
    (user : AuthenticatedUser) (data : WpPostUpdateData) :
    Except WpErr WpPostUpdateData :=
  match body.author with
  | some authorId =>
    if authorId != user.id && !userExists db authorId then
      .error ⟨"rest_invalid_author", "Invalid author ID.", 400⟩
    else
      .ok { data with post_author := some authorId }
  | none => .ok data

/-- The password section, with the password-side mutual-exclusion checks
against an explicit sticky=true and against current registry membership. -/
def preparePassword (db : Db) (body : PostUpdateInput)
    (existingPost : PostRow) (data : WpPostUpdateData) :
    Except WpErr WpPostUpdateData :=
  match body.password with
  | some pw =>
    if pw != "" then
      if body.sticky == some true then
        .error ⟨"rest_invalid_field",
          "A post can not be sticky and have a password.", 400⟩
      else if isSticky db existingPost.ID then
        .error ⟨"rest_invalid_field",
          "A sticky post can not be password protected.", 400⟩
      else .ok { data with post_password := some pw }
    else .ok { data with post_password := some pw }
  | none => .ok data

/-- The sticky-side mutual-exclusion check against the stored password. -/
def prepareStickyConflict (body : PostUpdateInput) (existingPost : PostRow) :
    Except WpErr Unit :=
  if body.sticky == some true && existingPost.post_password != "" then
    .error ⟨"rest_invalid_field",
      "A password protected post can not be set to sticky.", 400⟩
  else .ok ()

/-- The parent section: 0 is top level, non-zero must exist. -/
def prepareParent (db : Db) (body : PostUpdateInput)
    (data : WpPostUpdateData) : Except WpErr WpPostUpdateData :=
  match body.parent with
  | some parentId =>
    if parentId == 0 then
      .ok { data with post_parent := some 0 }
    else
      match getPostById db parentId with
      | none => .error ⟨"rest_post_invalid_id", "Invalid post parent ID.", 400⟩
      | some pp => .ok { data with post_parent := some pp.ID }
  | none => .ok data

/-- The menu_order/comment_status/ping_status tail section. -/
def prepareTail (body : PostUpdateInput) (data : WpPostUpdateData) :
    WpPostUpdateData :=
  let data := match body.menu_order with
    | some m => { data with menu_order := some m }
    | none => data
  let data := match body.comment_status with
    | some c => { data with comment_status := some c }
    | none => data
  match body.ping_status with
  | some p => { data with ping_status := some p }
  | none => data

/-- prepareItemForDatabase: compute the column update set from the patch,
section by section in source order; the first error aborts. -/
def prepareItemForDatabase (db : Db) (body : PostUpdateInput)
    (existingPost : PostRow) (user : AuthenticatedUser) :
    Except WpErr WpPostUpdateData :=
  match prepareStatus body existingPost user (prepareText body) with
  | .error e => .error e
  | .ok d1 =>
    match prepareAuthor db body user (prepareSlug body (prepareDates db body d1)) with
    | .error e => .error e
    | .ok d2 =>
      match preparePassword db body existingPost d2 with
      | .error e => .error e
      | .ok d3 =>
        match prepareStickyConflict body existingPost with
        | .error e => .error e
        | .ok _ =>
          match prepareParent db body d3 with
          | .error e => .error e
          | .ok d4 => .ok (prepareTail body d4)

/-! ### Side effects (step 7 of the orchestrator) -/

/-- handlePostFormat: "standard" or empty clears the format assignment,
other formats resolve to a term and replace it; unresolvable formats are
silently ignored. -/
def handlePostFormat (db : Db) (pid : Int) (format : String) : Db :=
  if format == "standard" || format == "" then
    setObjectTerms db pid [] "post_format"
  else
    match getPostFormatTermId db format with
    | some tid => setObjectTerms db pid [tid] "post_format"
    | none => db

/-- handleFeaturedMedia: positive ids must be attachments, 0 clears the
thumbnail meta. -/
def handleFeaturedMedia (db : Db) (fm : Int) (pid : Int) : Db × Option WpErr :=
  if fm > 0 then
    if !isValidAttachment db fm then
      (db, some ⟨"rest_invalid_featured_media", "Invalid featured media ID.", 400⟩)
    else
      (updatePostMeta db pid "_thumbnail_id" (toString fm), none)
  else
    (deletePostMeta db pid "_thumbnail_id", none)

/-- handleStickyStatus: add the id to the registry when absent, remove its
first occurrence when present; otherwise perform no write. -/
def handleStickyStatus (db : Db) (pid : Int) (sticky : Bool) : Db :=
  let stickyPosts := getStickyPosts db
  if sticky then
    if !stickyPosts.contains pid then
      setStickyPosts db (stickyPosts ++ [pid])
    else db
  else
    if stickyPosts.contains pid then
      setStickyPosts db (stickyPosts.erase pid)
    else db

/-- The category half of handleTerms. -/
def handleTermsCatStep (db : Db) (pid : Int) (body : PostUpdateInput) : Db :=
  match body.categories with
  | some l => setObjectTerms db pid l "category"
  | none => db

/-- The tag half of handleTerms. -/
def handleTermsTagStep (db : Db) (pid : Int) (body : PostUpdateInput) : Db :=
  match body.tags with
  | some l => setObjectTerms db pid l "post_tag"
  | none => db

/-- handleTerms: full replacement per provided taxonomy list, categories
then tags. -/
def handleTerms (db : Db) (pid : Int) (body : PostUpdateInput) : Db :=
  handleTermsTagStep (handleTermsCatStep db pid body) pid body

/-- One meta entry of step 7f: upsert a non-null value, skip a null. -/
def applyMetaEntry (pid : Int) (db : Db) (kv : String × Option String) : Db :=
  match kv.2 with
  | some v => updatePostMeta db pid kv.1 v
  | none => db

/-- Step 7f: upsert every non-null meta entry, skip null entries. -/
def applyMetaUpdates (db : Db) (pid : Int)
    (entries : List (String × Option String)) : Db :=
  entries.foldl (applyMetaEntry pid) db

/-! ### Response builder (post-response.service.ts) -/

/-- The guid field of the response. -/
structure GuidField where
  rendered : String
  raw : String
deriving Repr, DecidableEq

/-- The title field of the response. -/
structure TitleOut where
  raw : String
  rendered : String
deriving Repr, DecidableEq

/-- The content field of the response ("protected" of the wire shape is
named protectedFlag, "protected" being reserved in Lean). -/
structure ContentOut where
  raw : String
  rendered : String
  protectedFlag : Bool
  block_version : Nat
deriving Repr, DecidableEq

/-- The excerpt field of the response. -/
structure ExcerptOut where
  raw : String
  rendered : String
  protectedFlag : Bool
deriving Repr, DecidableEq

/-- The full post response (`WpPostResponse`); the three edit-context-only
fields are `Option`s that are `none` outside the edit context. -/
structure WpPostResponse where
  id : Int
  date : Option String
  date_gmt : Option String
  guid : GuidField
  modified : String
  modified_gmt : String
  slug : String
  status : String
  type : String
  link : String
  title : TitleOut
  content : ContentOut
  excerpt : ExcerptOut
  author : Int
  featured_media : Int
  comment_status : String
  ping_status : String
  sticky : Bool
  template : String
  format : String
  meta : List (String × String)
  categories : List Int
  tags : List Int
  password : Option String
  permalink_template : Option String
  generated_slug : Option String
deriving Repr, DecidableEq

/-- prepareDateGmt: the zero GMT sentinel is recomputed from the local
date minus the offset; otherwise the stored value is converted. -/
def prepareDateGmt (dateGmt dateLocal : String) (gmtOffset : Int) :
    Option String :=
  if dateGmt == zeroDate then
    match jsParseDate ⟨replaceFirstSpaceT dateLocal.toList⟩ with
    | none => none
    | some t => some (formatEpochMs "T" (t - gmtOffset * 3600000))
  else
    mysqlToRfc3339 dateGmt

/-- getPostFormat of the response builder: first assigned format term with
the "post-format-" naming prefix stripped, default "standard". -/
def getPostFormatOut (db : Db) (pid : Int) : String :=
  match getObjectTerms db pid "post_format" with
  | [] => "standard"
  | t :: _ =>
    if t.slug.startsWith "post-format-" then t.slug.drop 12 else t.slug

/-- Leading decimal digits of a string. -/
def leadingDigits (acc : Option Nat) : List Char → Option Nat
  | [] => acc
  | c :: cs =>
    match digitVal c with
    | some d => leadingDigits (some ((acc.getD 0) * 10 + d)) cs
    | none => acc

/-- Model of parseInt(s, 10) on the thumbnail meta value, with NaN mapped
to 0 (the meta is always written as a decimal numeral by this code). -/
def featuredFromMeta : Option String → Int
  | none => 0
  | some s =>
    if s == "" then 0
    else match s.toList with
      | '-' :: rest => -((leadingDigits none rest).getD 0 : Int)
      | cs => ((leadingDigits none cs).getD 0 : Int)

/-- buildPermalink: pretty date path for published posts with a slug,
query-parameter fallback otherwise. -/
def buildPermalink (siteUrl : String) (post : PostRow) : String :=
  let baseUrl := if siteUrl.endsWith "/" then siteUrl.dropRight 1 else siteUrl
  if post.post_status == "publish" && post.post_name != "" then
    baseUrl ++ "/" ++ post.post_date.take 4 ++ "/" ++
      (post.post_date.drop 5).take 2 ++ "/" ++
      (post.post_date.drop 8).take 2 ++ "/" ++ post.post_name ++ "/"
  else
    baseUrl ++ "/?p=" ++ toString post.ID

/-- buildPermalinkTemplate for the edit context. -/
def buildPermalinkTemplate (siteUrl : String) (post : PostRow) : String :=
  let baseUrl := if siteUrl.endsWith "/" then siteUrl.dropRight 1 else siteUrl
  baseUrl ++ "/" ++ post.post_date.take 4 ++ "/" ++
    (post.post_date.drop 5).take 2 ++ "/" ++
    (post.post_date.drop 8).take 2 ++ "/%postname%/"

/-- The whitespace class of the block-delimiter regex. -/
def jsWhitespace (c : Char) : Bool :=
  c == ' ' || c == '\t' || c == '\n' || c == '\r' ||
    c == Char.ofNat 11 || c == Char.ofNat 12

/-- After at least one whitespace character: skip further whitespace and
require the literal "wp:". -/
def wsWpCont : List Char → Bool
  | [] => false
  | c :: cs =>
    if jsWhitespace c then wsWpCont cs
    else
      c == 'w' && (match cs with
        | 'p' :: ':' :: _ => true
        | _ => false)

/-- Match of the block-delimiter pattern at the head of the list. -/
def startsBlockDelim : List Char → Bool
  | '<' :: '!' :: '-' :: '-' :: c :: cs => jsWhitespace c && wsWpCont (c :: cs)
  | _ => false

/-- Search the block-delimiter pattern anywhere in the list. -/
def hasBlockDelim : List Char → Bool
  | [] => false
  | c :: cs => startsBlockDelim (c :: cs) || hasBlockDelim cs

/-- countBlockVersion: 1 when the content matches the block delimiter
regex, 0 otherwise. -/
def countBlockVersion (content : String) : Nat :=
  if hasBlockDelim content.toList then 1 else 0

/-- buildPostResponse: assemble the external representation of a stored
post from the row and the side-channel lookups. -/
def buildPostResponse (db : Db) (post : PostRow) (context : String)
    (siteUrl : String) (gmtOffset : Int) : WpPostResponse :=
  let isProt := post.post_password != ""
  { id := post.ID
    date := mysqlToRfc3339 post.post_date
    date_gmt := prepareDateGmt post.post_date_gmt post.post_date gmtOffset
    guid := ⟨post.guid, post.guid⟩
    modified := (mysqlToRfc3339 post.post_modified).getD ""
    modified_gmt := (prepareDateGmt post.post_modified_gmt post.post_modified
      gmtOffset).getD ""
    slug := post.post_name
    status := post.post_status
    type := post.post_type
    link := buildPermalink siteUrl post
    title := ⟨post.post_title, post.post_title⟩
    content := ⟨post.post_content, if isProt then "" else post.post_content,
      isProt, countBlockVersion post.post_content⟩
    excerpt := ⟨post.post_excerpt, if isProt then "" else post.post_excerpt,
      isProt⟩
    author := post.post_author
    featured_media := featuredFromMeta (getPostMeta db post.ID "_thumbnail_id")
    comment_status := post.comment_status
    ping_status := post.ping_status
    sticky := isSticky db post.ID
    template := (getPostMeta db post.ID "_wp_page_template").getD ""
    format := getPostFormatOut db post.ID
    meta := (getAllPostMeta db post.ID).filter (fun kv => !kv.1.startsWith "_")
    categories := (getObjectTerms db post.ID "category").map (fun t => t.term_id)
    tags := (getObjectTerms db post.ID "post_tag").map (fun t => t.term_id)
    password := if context == "edit" then some post.post_password else none
    permalink_template :=
      if context == "edit" then some (buildPermalinkTemplate siteUrl post) else none
    generated_slug := if context == "edit" then some post.post_name else none }

/-! ### The orchestrator (handlePostUpdate) -/

/-- The effective resulting status of the slug-uniqueness step:
updateData.post_status || existingPost.post_status (JS truthiness, so an
empty prepared status also falls back to the stored one). -/
def effectiveStatusOf (d : WpPostUpdateData) (post : PostRow) : String :=
  match d.post_status with
  | some s => if s != "" then s else post.post_status
  | none => post.post_status

/-- Step 5: the slug-uniqueness adjustment — only for a non-empty prepared
slug when the effective resulting status is draft or pending, passing
"publish" as the status argument.  The fuel db.posts.length + 1 is enough
for the loop since candidates are pairwise distinct strings. -/
def slugAdjusted (db : Db) (postId : Int) (existingPost : PostRow)
    (d : WpPostUpdateData) : WpPostUpdateData :=
  let effectiveStatus := effectiveStatusOf d existingPost
  match d.post_name with
  | some s =>
    if s != "" && (effectiveStatus == "draft" || effectiveStatus == "pending") then
      { d with post_name := some (uniquePostSlug (db.posts.length + 1) db s
          postId "publish" existingPost.post_type
          (d.post_parent.getD existingPost.post_parent)) }
    else d
  | none => d

/-- Step 7a: the format side effect, gated on field presence. -/
def applyFormatStep (db : Db) (postId : Int) (body : PostUpdateInput) : Db :=
  match body.format with
  | some f => handlePostFormat db postId f
  | none => db

/-- Step 7b: the featured-media side effect, gated on field presence. -/
def applyFeaturedStep (db : Db) (postId : Int) (body : PostUpdateInput) :
    Db × Option WpErr :=
  match body.featured_media with
  | some fm => handleFeaturedMedia db fm postId
  | none => (db, none)

/-- Step 7c: the sticky side effect, gated on field presence. -/
def applyStickyStep (db : Db) (postId : Int) (body : PostUpdateInput) : Db :=
  match body.sticky with
  | some s => handleStickyStatus db postId s
  | none => db

/-- Step 7d: the template meta write, gated on field presence. -/
def applyTemplateStep (db : Db) (postId : Int) (body : PostUpdateInput) : Db :=
  match body.template with
  | some t => updatePostMeta db postId "_wp_page_template" t
  | none => db

/-- Step 7f gate: the meta map, when present. -/
def applyMetaStep (db : Db) (postId : Int) (body : PostUpdateInput) : Db :=
  match body.meta with
  | some entries => applyMetaUpdates db postId entries
  | none => db

/-- Steps 7c–7f: sticky, template, taxonomy terms and meta, each gated on
field presence. -/
def applyTailSteps (db : Db) (postId : Int) (body : PostUpdateInput) : Db :=
  applyMetaStep
    (handleTerms (applyTemplateStep (applyStickyStep db postId body)
      postId body) postId body) postId body

/-- Step 7: the side effects after the row update (format, featured media,
sticky, template, taxonomy terms, meta); a featured-media failure stops
the remaining steps. -/
def applySideEffects (db : Db) (postId : Int) (body : PostUpdateInput) :
    Db × Option WpErr :=
  match applyFeaturedStep (applyFormatStep db postId body) postId body with
  | (db, some e) => (db, some e)
  | (db, none) => (applyTailSteps db postId body, none)

/-- Steps 5–8: slug uniqueness, persist, side effects, re-read and
response. -/
def persistAndRespond (db : Db) (postId : Int) (body : PostUpdateInput)
    (existingPost : PostRow) (d0 : WpPostUpdateData) (nowL nowU : String) :
    Db × Except WpErr WpPostResponse :=
  match updatePost db postId (slugAdjusted db postId existingPost d0) nowL nowU with
  | (db, false) =>
    (db, .error ⟨"db_update_error",
      "Could not update post in the database.", 500⟩)
  | (db, true) =>
    match applySideEffects db postId body with
    | (db, some e) => (db, .error e)
    | (db, none) =>
      match getPostById db postId with
      | none =>
        (db, .error ⟨"rest_post_invalid_id", "Post not found after update.", 500⟩)
      | some updatedPost =>
        (db, .ok (buildPostResponse db updatedPost "edit"
          (getSiteUrl db) (getGmtOffset db)))

/-- handlePostUpdate: the full update flow on one connection.  The returned
`Db` is the connection-local state at the point the function returns —
committed or rolled back by the transaction wrapper of the route. -/
def handlePostUpdate (db : Db) (postId : Int) (body : PostUpdateInput)
    (user : AuthenticatedUser) (nowL nowU : String) :
    Db × Except WpErr WpPostResponse :=
  match getPostById db postId with
  | none => (db, .error ⟨"rest_post_invalid_id", "Invalid post ID.", 404⟩)
  | some existingPost =>
    if existingPost.post_type != "post" then
      (db, .error ⟨"rest_post_invalid_id", "Invalid post ID.", 404⟩)
    else
      match checkPermissions existingPost body user with
      | some e => (db, .error e)
      | none =>
        match prepareItemForDatabase db body existingPost user with
        | .error e => (db, .error e)
        | .ok updateData =>
          persistAndRespond db postId body existingPost updateData nowL nowU

/-! ### Request schema (post-update-schema.ts) and the route handler -/

/-- The closed status enumeration of the zod schema. -/
def statusEnum : List String :=
  ["publish", "future", "draft", "pending", "private", "trash"]

/-- The closed format enumeration of the zod schema. -/
def formatEnum : List String :=
  ["standard", "aside", "chat", "gallery", "link", "image", "quote",
   "status", "video", "audio"]

/-- The comment/ping status enumeration. -/
def openClosed : List String := ["open", "closed"]

/-- The 400 error the route builds from the first zod issue. -/
def invalidParam (field : String) : WpErr :=
  ⟨"rest_invalid_param", "Invalid parameter: " ++ field, 400⟩

/-- postUpdateSchema.safeParse: the value-level refinements of the zod
schema, checked in field declaration order over an already JSON-shaped
body (the type of `PostUpdateInput` carries the structural layer). -/
def postUpdateSchemaParse (b : PostUpdateInput) :
    Except WpErr PostUpdateInput :=
  if (match b.status with
      | some st => !statusEnum.contains st
      | none => false) then .error (invalidParam "status")
  else if (match b.author with
      | some a => decide (a ≤ 0)
      | none => false) then .error (invalidParam "author")
  else if (match b.featured_media with
      | some m => decide (m < 0)
      | none => false) then .error (invalidParam "featured_media")
  else if (match b.format with
      | some f => !formatEnum.contains f
      | none => false) then .error (invalidParam "format")
  else if (match b.comment_status with
      | some c => !openClosed.contains c
      | none => false) then .error (invalidParam "comment_status")
  else if (match b.ping_status with
      | some p => !openClosed.contains p
      | none => false) then .error (invalidParam "ping_status")
  else if (match b.parent with
      | some p => decide (p < 0)
      | none => false) then .error (invalidParam "parent")
  else if (match b.categories with
      | some l => l.any (fun t => decide (t ≤ 0))
      | none => false) then .error (invalidParam "categories")
  else if (match b.tags with
      | some l => l.any (fun t => decide (t ≤ 0))
      | none => false) then .error (invalidParam "tags")
  else .ok b

/-- Outcome of a transaction callback: a resolved value or a thrown
exception.  The embedded pipeline returns all its errors as values, so it
only ever resolves. -/
inductive TxResult (α : Type) where
  | value (a : α)
  | thrown
deriving Repr, DecidableEq

/-- withTransaction from the connection module: commit the callback state
when the callback resolves, roll back to the entry state when it throws. -/
def withTransaction {α : Type} (db : Db) (fn : Db → Db × TxResult α) :
    Db × TxResult α :=
  match fn db with
  | (db', .value a) => (db', .value a)
  | (_, .thrown) => (db, .thrown)

/-- The route handler: id validation, schema validation, then
authentication and the update inside one transaction.  Authentication is
abstracted to its result (`authUser`); `none` is the unauthenticated
outcome. -/
def handleUpdateRoute (db : Db) (postId : Int) (raw : PostUpdateInput)
    (authUser : Option AuthenticatedUser) (nowL nowU : String) :
    Db × Except WpErr WpPostResponse :=
  if postId ≤ 0 then
    (db, .error ⟨"rest_post_invalid_id", "Invalid post ID.", 404⟩)
  else
    match postUpdateSchemaParse raw with
    | .error e => (db, .error e)
    | .ok body =>
      match withTransaction db (fun conn =>
        match authUser with
        | none =>
          (conn, .value (.error ⟨"rest_not_logged_in",
            "You are not currently logged in.", 401⟩))
        | some user =>
          let r := handlePostUpdate conn postId body user nowL nowU
          (r.1, .value r.2)) with
      | (db', .value r) => (db', r)
      | (db', .thrown) =>
        (db', .error ⟨"rest_internal_error",
          "An unexpected error occurred.", 500⟩)

/-! ### Concrete fixtures for witnesses and counterexamples -/

/-- A stored draft post owned by user 1. -/
def basePost : PostRow :=
  { ID := 1, post_author := 1, post_date := "2024-01-01 00:00:00",
    post_date_gmt := "2024-01-01 00:00:00", post_content := "Body",
    post_title := "Old", post_excerpt := "", post_status := "draft",
    comment_status := "open", ping_status := "open", post_password := "",
    post_name := "old-slug", to_ping := "", pinged := "",
    post_modified := "2024-01-01 00:00:00",
    post_modified_gmt := "2024-01-01 00:00:00",
    post_content_filtered := "", post_parent := 0,
    guid := "http://localhost/?p=1", menu_order := 0, post_type := "post",
    post_mime_type := "", comment_count := 0 }

/-- A store holding only basePost. -/
def baseDb : Db :=
  { posts := [basePost], userIds := [1], postmeta := [], terms := [],
    termTaxonomy := [], termRelationships := [],
    options := [("siteurl", .str "http://localhost"), ("gmt_offset", .num 0)] }

/-- The owner of basePost, with the base edit capability. -/
def ownerUser : AuthenticatedUser := { id := 1, caps := ["edit_posts"] }

/-- A principal with every capability this flow consults. -/
def adminUser : AuthenticatedUser :=
  { id := 1,
    caps := ["edit_posts", "edit_others_posts", "edit_published_posts",
             "edit_private_posts", "publish_posts", "assign_categories",
             "manage_categories", "assign_post_tags", "manage_post_tags"] }

/-- An authenticated editor of other accounts' published posts who holds
neither edit_posts nor publish_posts. -/
def editorNoEditPosts : AuthenticatedUser :=
  { id := 1, caps := ["edit_others_posts", "edit_published_posts"] }

/-- A published post of another author. -/
def otherPublishedPost : PostRow :=
  { basePost with ID := 2, post_author := 2, post_status := "publish" }

/-- A store holding only otherPublishedPost. -/
def otherPublishedDb : Db := { baseDb with posts := [otherPublishedPost] }

/-- basePost as a published post (same owner). -/
def ownPublishedPost : PostRow := { basePost with post_status := "publish" }

/-- A store holding only ownPublishedPost. -/
def ownPublishedDb : Db := { baseDb with posts := [ownPublishedPost] }

/-- A published post of another author already holding the slug "hello". -/
def helloPost : PostRow :=
  { basePost with
    ID := 5
    post_author := 2
    post_status := "publish"
    post_name := "hello" }

/-- Store where post 1 is published and post 5 already owns "hello". -/
def collisionPublishDb : Db :=
  { baseDb with posts := [ownPublishedPost, helloPost] }

/-- Store where post 1 is a draft and post 5 already owns "hello". -/
def collisionDraftDb : Db :=
  { baseDb with posts := [basePost, helloPost] }

/-- Store whose sticky registry holds post 7. -/
def stickyDb : Db :=
  { baseDb with options := baseDb.options ++ [("sticky_posts", .intList [7])] }

/-- The C1 failing patch: a title change plus a dangling featured-media
reference. -/
def titleAndBadMediaBody : PostUpdateInput :=
  { title := some (.plain "New"), featured_media := some 999 }

/-- An editor of own published posts without the publish capability. -/
def ownPublishedEditor : AuthenticatedUser :=
  { id := 1, caps := ["edit_published_posts"] }

/-- baseDb with a +2 hour site offset. -/
def dbOffset2 : Db :=
  { baseDb with
    options := [("siteurl", .str "http://localhost"), ("gmt_offset", .num 2)] }

/-- basePost with both date columns at the zero-date sentinel. -/
def zeroDatePost : PostRow :=
  { basePost with post_date := zeroDate, post_date_gmt := zeroDate }

/-! ## Lemmas and claim theorems -/

/-- The first clause group writes exactly its provided columns. -/
lemma applyClausesA_eq (d : WpPostUpdateData) (r : PostRow) :
    applyClausesA d r = { r with
      post_title := d.post_title.getD r.post_title,
      post_content := d.post_content.getD r.post_content,
      post_excerpt := d.post_excerpt.getD r.post_excerpt,
      post_status := d.post_status.getD r.post_status,
      post_date := d.post_date.getD r.post_date,
      post_date_gmt := d.post_date_gmt.getD r.post_date_gmt,
      post_name := d.post_name.getD r.post_name } := by
  obtain ⟨t, c, e, s, dt, dg, nm, au, pw, pp, mo, cs, ps⟩ := d
  cases t <;> cases c <;> cases e <;> cases s <;> cases dt <;> cases dg <;>
    cases nm <;> rfl

/-- The second clause group writes exactly its provided columns plus both
modified timestamps. -/
lemma applyClausesB_eq (d : WpPostUpdateData) (nowL nowU : String) (r : PostRow) :
    applyClausesB d nowL nowU r = { r with
      post_author := d.post_author.getD r.post_author,
      post_password := d.post_password.getD r.post_password,
      post_parent := d.post_parent.getD r.post_parent,
      menu_order := d.menu_order.getD r.menu_order,
      comment_status := d.comment_status.getD r.comment_status,
      ping_status := d.ping_status.getD r.ping_status,
      post_modified := nowL,
      post_modified_gmt := nowU } := by
  obtain ⟨t, c, e, s, dt, dg, nm, au, pw, pp, mo, cs, ps⟩ := d
  cases au <;> cases pw <;> cases pp <;> cases mo <;> cases cs <;> cases ps <;>
    rfl

/-- C6: for every valid patch, the single UPDATE statement writes exactly the
provided fields' columns, always refreshes both modified timestamps, and
leaves every other column (identity, type, guid, ping lists, mime type,
comment count) at its prior value — stated as the full equational
characterization of the row transformation of updatePost. -/
theorem c6_update_writes_exactly_provided_columns
    (r : PostRow) (d : WpPostUpdateData) (nowL nowU : String) :
    applyUpdateRow r d nowL nowU = { r with
      post_title := d.post_title.getD r.post_title,
      post_content := d.post_content.getD r.post_content,
      post_excerpt := d.post_excerpt.getD r.post_excerpt,
      post_status := d.post_status.getD r.post_status,
      post_date := d.post_date.getD r.post_date,
      post_date_gmt := d.post_date_gmt.getD r.post_date_gmt,
      post_name := d.post_name.getD r.post_name,
      post_author := d.post_author.getD r.post_author,
      post_password := d.post_password.getD r.post_password,
      post_parent := d.post_parent.getD r.post_parent,
      menu_order := d.menu_order.getD r.menu_order,
      comment_status := d.comment_status.getD r.comment_status,
      ping_status := d.ping_status.getD r.ping_status,
      post_modified := nowL,
      post_modified_gmt := nowU } := by
  rw [applyUpdateRow, applyClausesA_eq, applyClausesB_eq]

/-- C1: the claim says any failure after the post-row update (for example
an invalid featured_media reference) aborts the transaction so that no
effect of the persist step is retained.  The code contradicts it: the
pipeline returns its errors as values, the transaction wrapper only rolls
back on thrown exceptions, so the callback resolves and commits.  At the
failing input (patch {title: "New", featured_media: 999} on post 1, 999
not an attachment) the endpoint returns the 400 error, yet the committed
store keeps the updated title "New" instead of the prior "Old". -/
theorem c1_error_after_persist_commits_post_row_change :
    (handleUpdateRoute baseDb 1 titleAndBadMediaBody (some ownerUser)
        "2024-06-01 12:00:00" "2024-06-01 12:00:00").2 =
      .error ⟨"rest_invalid_featured_media", "Invalid featured media ID.", 400⟩ ∧
    ((handleUpdateRoute baseDb 1 titleAndBadMediaBody (some ownerUser)
        "2024-06-01 12:00:00" "2024-06-01 12:00:00").1.posts.map
      (fun p => p.post_title)) = ["New"] ∧
    baseDb.posts.map (fun p => p.post_title) = ["Old"] := by
  refine ⟨rfl, rfl, rfl⟩

/-- C2 counterexample: the claim says status="bogus-value" is accepted and
silently saved as draft even for a fully-capable principal.  In fact the
closed zod status enumeration rejects it at the schema layer: the route
returns a 400 rest_invalid_param error and the store is untouched. -/
theorem c2_counterexample_bogus_status_rejected :
    handleUpdateRoute baseDb 1 { status := some "bogus-value" } (some adminUser)
        "2024-06-01 12:00:00" "2024-06-01 12:00:00" =
      (baseDb, .error (invalidParam "status")) := by
  rfl

/-- C2 (amended): a patch whose status is outside the schema enumeration is
rejected for every principal with the 400 rest_invalid_param error, before
authentication and before the status normalizer can run; the draft
fallback never sees it. -/
theorem c2_amended_unknown_status_schema_rejected
    (db : Db) (pid : Int) (raw : PostUpdateInput)
    (authUser : Option AuthenticatedUser) (nowL nowU : String) (st : String)
    (hpid : 0 < pid) (hst : raw.status = some st)
    (hmem : statusEnum.contains st = false) :
    handleUpdateRoute db pid raw authUser nowL nowU =
      (db, .error (invalidParam "status")) := by
  unfold handleUpdateRoute
  rw [if_neg (by omega)]
  have hparse : postUpdateSchemaParse raw = .error (invalidParam "status") := by
    unfold postUpdateSchemaParse
    rw [hst]
    simp only [hmem]
    rfl
  rw [hparse]

/-- C2 witness: the amended theorem applied at a concrete unknown status. -/
theorem c2_amended_witness :
    handleUpdateRoute baseDb 1 { status := some "no-such-status" }
        (some ownerUser) "2024-06-01 12:00:00" "2024-06-01 12:00:00" =
      (baseDb, .error (invalidParam "status")) :=
  c2_amended_unknown_status_schema_rejected baseDb 1
    { status := some "no-such-status" } (some ownerUser)
    "2024-06-01 12:00:00" "2024-06-01 12:00:00" "no-such-status"
    (by decide) rfl (by decide)

/-- C3 counterexample: the claim says a denied request of an authenticated
principal always gets 403.  An authenticated editor holding
edit_others_posts and edit_published_posts but not edit_posts, patching
someone else's published post to status "private" without publish_posts,
is denied by the status-change check with HTTP 401, not 403. -/
theorem c3_counterexample_authenticated_gets_401 :
    (handlePostUpdate otherPublishedDb 2 { status := some "private" }
        editorNoEditPosts "2024-06-01 12:00:00" "2024-06-01 12:00:00").2 =
      .error ⟨"rest_cannot_publish",
        "Sorry, you are not allowed to create private posts in this post type.",
        401⟩ ∧
    editorNoEditPosts.caps ≠ [] := by
  refine ⟨rfl, by decide⟩

/-- Error shape of the status normalizer: only the cannot-publish error,
403 with edit_posts, 401 without. -/
lemma validateStatus_error_shape {st : String} {user : AuthenticatedUser}
    {e : WpErr} (h : validateAndNormalizeStatus st user = .error e) :
    e.code = "rest_cannot_publish" ∧
      e.status = if user.hasCap "edit_posts" then 403 else 401 := by
  unfold validateAndNormalizeStatus at h
  split at h
  · exact Except.noConfusion h
  · split at h
    · split at h
      · injection h with h
        subst h
        exact ⟨rfl, rfl⟩
      · exact Except.noConfusion h
    · split at h
      · split at h
        · injection h with h
          subst h
          exact ⟨rfl, rfl⟩
        · exact Except.noConfusion h
      · exact Except.noConfusion h

/-- Error shape of the permission block: every denial is one of the four
denial codes and carries status 403. -/
lemma checkPermissions_some_shape {post : PostRow} {body : PostUpdateInput}
    {user : AuthenticatedUser} {e : WpErr}
    (h : checkPermissions post body user = some e) :
    e.status = 403 ∧
      (e.code = "rest_cannot_edit" ∨ e.code = "rest_cannot_edit_others" ∨
       e.code = "rest_cannot_assign_sticky" ∨ e.code = "rest_cannot_assign_term") := by
  unfold checkPermissions at h
  split at h
  · injection h with h
    subst h
    exact ⟨rfl, .inl rfl⟩
  · split at h
    · injection h with h
      subst h
      exact ⟨rfl, .inr (.inl rfl)⟩
    · split at h
      · injection h with h
        subst h
        exact ⟨rfl, .inr (.inr (.inl rfl))⟩
      · split at h
        · injection h with h
          subst h
          exact ⟨rfl, .inr (.inr (.inr rfl))⟩
        · exact Option.noConfusion h

/-- Error shape of the status preparation step. -/
lemma prepareStatus_error_shape {body : PostUpdateInput} {post : PostRow}
    {user : AuthenticatedUser} {data : WpPostUpdateData} {e : WpErr}
    (h : prepareStatus body post user data = .error e) :
    ∃ st, body.status = some st ∧ st ≠ post.post_status ∧
      validateAndNormalizeStatus st user = .error e := by
  unfold prepareStatus at h
  split at h
  · rename_i st hstat
    split at h
    · rename_i hne
      split at h
      · rename_i hv
        injection h with h
        subst h
        exact ⟨st, hstat, bne_iff_ne.mp hne, hv⟩
      · exact Except.noConfusion h
    · exact Except.noConfusion h
  · exact Except.noConfusion h

/-- Error shape of the author preparation step. -/
lemma prepareAuthor_error_shape {db : Db} {body : PostUpdateInput}
    {user : AuthenticatedUser} {data : WpPostUpdateData} {e : WpErr}
    (h : prepareAuthor db body user data = .error e) :
    e = ⟨"rest_invalid_author", "Invalid author ID.", 400⟩ := by
  unfold prepareAuthor at h
  split at h
  · split at h
    · injection h with h
      subst h
      rfl
    · exact Except.noConfusion h
  · exact Except.noConfusion h

/-- Inputs that make the author preparation step fail. -/
lemma prepareAuthor_error_inputs {db : Db} {body : PostUpdateInput}
    {user : AuthenticatedUser} {data : WpPostUpdateData} {e : WpErr}
    (h : prepareAuthor db body user data = .error e) :
    ∃ a, body.author = some a ∧ a ≠ user.id ∧ userExists db a = false := by
  unfold prepareAuthor at h
  split at h
  · rename_i a ha
    split at h
    · rename_i hc
      rw [Bool.and_eq_true] at hc
      refine ⟨a, ha, bne_iff_ne.mp hc.1, ?_⟩
      have := hc.2
      rwa [Bool.not_eq_true'] at this
    · exact Except.noConfusion h
  · exact Except.noConfusion h

/-- Error shape of the password preparation step. -/
lemma preparePassword_error_shape {db : Db} {body : PostUpdateInput}
    {post : PostRow} {data : WpPostUpdateData} {e : WpErr}
    (h : preparePassword db body post data = .error e) :
    e.code = "rest_invalid_field" ∧ e.status = 400 := by
  unfold preparePassword at h
  split at h
  · split at h
    · split at h
      · injection h with h
        subst h
        exact ⟨rfl, rfl⟩
      · split at h
        · injection h with h
          subst h
          exact ⟨rfl, rfl⟩
        · exact Except.noConfusion h
    · exact Except.noConfusion h
  · exact Except.noConfusion h

/-- Inputs that make the password preparation step fail. -/
lemma preparePassword_error_inputs {db : Db} {body : PostUpdateInput}
    {post : PostRow} {data : WpPostUpdateData} {e : WpErr}
    (h : preparePassword db body post data = .error e) :
    ∃ pw, body.password = some pw ∧ pw ≠ "" := by
  unfold preparePassword at h
  split at h
  · rename_i pw hpw
    split at h
    · rename_i hne
      exact ⟨pw, hpw, bne_iff_ne.mp hne⟩
    · exact Except.noConfusion h
  · exact Except.noConfusion h

/-- Error shape of the sticky-conflict check. -/
lemma prepareStickyConflict_error_shape {body : PostUpdateInput}
    {post : PostRow} {e : WpErr}
    (h : prepareStickyConflict body post = .error e) :
    e = ⟨"rest_invalid_field",
      "A password protected post can not be set to sticky.", 400⟩ := by
  unfold prepareStickyConflict at h
  split at h
  · injection h with h
    subst h
    rfl
  · exact Except.noConfusion h

/-- Error shape of the parent preparation step. -/
lemma prepareParent_error_shape {db : Db} {body : PostUpdateInput}
    {data : WpPostUpdateData} {e : WpErr}
    (h : prepareParent db body data = .error e) :
    e = ⟨"rest_post_invalid_id", "Invalid post parent ID.", 400⟩ := by
  unfold prepareParent at h
  split at h
  · split at h
    · exact Except.noConfusion h
    · split at h
      · injection h with h
        subst h
        rfl
      · exact Except.noConfusion h
  · exact Except.noConfusion h

/-- Error shape of the whole preparation phase. -/
lemma prepare_error_shape {db : Db} {body : PostUpdateInput} {post : PostRow}
    {user : AuthenticatedUser} {e : WpErr}
    (h : prepareItemForDatabase db body post user = .error e) :
    (e.code = "rest_cannot_publish" ∧
      e.status = if user.hasCap "edit_posts" then 403 else 401) ∨
    (e.status = 400 ∧
      (e.code = "rest_invalid_author" ∨ e.code = "rest_invalid_field" ∨
       e.code = "rest_post_invalid_id")) := by
  unfold prepareItemForDatabase at h
  split at h
  · rename_i h1
    injection h with h
    subst h
    obtain ⟨st, _, _, hv⟩ := prepareStatus_error_shape h1
    exact .inl (validateStatus_error_shape hv)
  · split at h
    · rename_i h1
      injection h with h
      subst h
      have h2 := prepareAuthor_error_shape h1
      subst h2
      exact .inr ⟨rfl, .inl rfl⟩
    · split at h
      · rename_i h1
        injection h with h
        subst h
        have h2 := preparePassword_error_shape h1
        exact .inr ⟨h2.2, .inr (.inl h2.1)⟩
      · split at h
        · rename_i h1
          injection h with h
          subst h
          have h2 := prepareStickyConflict_error_shape h1
          subst h2
          exact .inr ⟨rfl, .inr (.inl rfl)⟩
        · split at h
          · rename_i h1
            injection h with h
            subst h
            have h2 := prepareParent_error_shape h1
            subst h2
            exact .inr ⟨rfl, .inr (.inr rfl)⟩
          · exact Except.noConfusion h

/-- Error shape of the featured-media side effect. -/
lemma handleFeaturedMedia_error_shape {db db' : Db} {fm pid : Int} {e : WpErr}
    (h : handleFeaturedMedia db fm pid = (db', some e)) :
    e = ⟨"rest_invalid_featured_media", "Invalid featured media ID.", 400⟩ := by
  unfold handleFeaturedMedia at h
  split at h
  · split at h
    · injection h with h1 h2
      injection h2 with h2
      subst h2
      rfl
    · injection h with h1 h2
      exact Option.noConfusion h2
  · injection h with h1 h2
    exact Option.noConfusion h2

/-- Error shape of the featured-media stage. -/
lemma applyFeaturedStep_error_shape {db db' : Db} {pid : Int}
    {body : PostUpdateInput} {e : WpErr}
    (h : applyFeaturedStep db pid body = (db', some e)) :
    e = ⟨"rest_invalid_featured_media", "Invalid featured media ID.", 400⟩ := by
  unfold applyFeaturedStep at h
  split at h
  · exact handleFeaturedMedia_error_shape h
  · injection h with h1 h2
    exact Option.noConfusion h2

/-- Error shape of the side-effect stage: only the featured-media error. -/
lemma applySideEffects_error_shape {db db' : Db} {pid : Int}
    {body : PostUpdateInput} {e : WpErr}
    (h : applySideEffects db pid body = (db', some e)) :
    e = ⟨"rest_invalid_featured_media", "Invalid featured media ID.", 400⟩ := by
  unfold applySideEffects at h
  split at h
  · rename_i hfm
    injection h with h1 h2
    injection h2 with h2
    subst h2
    exact applyFeaturedStep_error_shape hfm
  · injection h with h1 h2
    exact Option.noConfusion h2

/-- Error shape of the persist-and-respond stage. -/
lemma persistAndRespond_error_shape {db db' : Db} {pid : Int}
    {body : PostUpdateInput} {post : PostRow} {d0 : WpPostUpdateData}
    {nowL nowU : String} {e : WpErr}
    (h : persistAndRespond db pid body post d0 nowL nowU = (db', .error e)) :
    e = ⟨"db_update_error", "Could not update post in the database.", 500⟩ ∨
    e = ⟨"rest_invalid_featured_media", "Invalid featured media ID.", 400⟩ ∨
    e = ⟨"rest_post_invalid_id", "Post not found after update.", 500⟩ := by
  unfold persistAndRespond at h
  split at h
  · injection h with h1 h2
    injection h2 with h2
    subst h2
    exact .inl rfl
  · split at h
    · rename_i hse
      injection h with h1 h2
      injection h2 with h2
      subst h2
      exact .inr (.inl (applySideEffects_error_shape hse))
    · split at h
      · injection h with h1 h2
        injection h2 with h2
        subst h2
        exact .inr (.inr rfl)
      · injection h with h1 h2
        exact Except.noConfusion h2

/-- C3 (amended): the 401/403 boundary rule holds for the unauthenticated
case and for every permission denial (base edit, author reassignment,
sticky, term assignment) — all 403 for an authenticated principal — with
one exception the claim misses: the status-change capability check derives
its status from the edit_posts capability, so an authenticated principal
without edit_posts is denied a status change with 401, not 403. -/
theorem c3_amended_denial_status_codes :
    (∀ (db : Db) (pid : Int) (raw body : PostUpdateInput) (nowL nowU : String),
       0 < pid → postUpdateSchemaParse raw = .ok body →
       handleUpdateRoute db pid raw none nowL nowU =
         (db, .error ⟨"rest_not_logged_in",
           "You are not currently logged in.", 401⟩)) ∧
    (∀ (db db' : Db) (pid : Int) (body : PostUpdateInput)
       (user : AuthenticatedUser) (nowL nowU : String) (e : WpErr),
       handlePostUpdate db pid body user nowL nowU = (db', .error e) →
       ((e.code = "rest_cannot_edit" ∨ e.code = "rest_cannot_edit_others" ∨
         e.code = "rest_cannot_assign_sticky" ∨
         e.code = "rest_cannot_assign_term") → e.status = 403) ∧
       (e.code = "rest_cannot_publish" →
         e.status = if user.hasCap "edit_posts" then 403 else 401)) := by
  constructor
  · intro db pid raw body nowL nowU hpid hparse
    unfold handleUpdateRoute
    rw [if_neg (by omega), hparse]
    rfl
  · intro db db' pid body user nowL nowU e h
    unfold handlePostUpdate at h
    split at h
    · injection h with h1 h2
      injection h2 with h2
      subst h2
      refine ⟨fun hc => ?_, fun hc => absurd hc (by decide)⟩
      rcases hc with hc | hc | hc | hc <;> exact absurd hc (by decide)
    · split at h
      · injection h with h1 h2
        injection h2 with h2
        subst h2
        refine ⟨fun hc => ?_, fun hc => absurd hc (by decide)⟩
        rcases hc with hc | hc | hc | hc <;> exact absurd hc (by decide)
      · split at h
        · rename_i e0 hperm
          injection h with h1 h2
          injection h2 with h2
          subst h2
          obtain ⟨h403, hcodes⟩ := checkPermissions_some_shape hperm
          refine ⟨fun _ => h403, fun hc => ?_⟩
          rcases hcodes with hc2 | hc2 | hc2 | hc2 <;>
            exact absurd (hc2.symm.trans hc) (by decide)
        · split at h
          · rename_i e0 hprep
            injection h with h1 h2
            injection h2 with h2
            subst h2
            rcases prepare_error_shape hprep with ⟨hcode, hstatus⟩ | ⟨h400, hcodes⟩
            · refine ⟨fun hc => ?_, fun _ => hstatus⟩
              rcases hc with hc | hc | hc | hc <;>
                exact absurd (hcode.symm.trans hc) (by decide)
            · refine ⟨fun hc => ?_, fun hc => ?_⟩
              · rcases hc with hc | hc | hc | hc <;>
                  rcases hcodes with hc2 | hc2 | hc2 <;>
                    exact absurd (hc2.symm.trans hc) (by decide)
              · rcases hcodes with hc2 | hc2 | hc2 <;>
                  exact absurd (hc2.symm.trans hc) (by decide)
          · rcases persistAndRespond_error_shape h with he | he | he <;>
              · subst he
                refine ⟨fun hc => ?_, fun hc => absurd hc (by decide)⟩
                rcases hc with hc | hc | hc | hc <;> exact absurd hc (by decide)

/-- C3 witness: both parts of the amended theorem at concrete inputs — an
unauthenticated request is denied with 401, and the concrete authenticated
principal without edit_posts is denied the status change with 401. -/
theorem c3_amended_witness :
    handleUpdateRoute baseDb 1 {} none "a" "b" =
      (baseDb, .error ⟨"rest_not_logged_in",
        "You are not currently logged in.", 401⟩) ∧
    (⟨"rest_cannot_publish",
        "Sorry, you are not allowed to create private posts in this post type.",
        401⟩ : WpErr).status =
      if editorNoEditPosts.hasCap "edit_posts" then 403 else 401 := by
  constructor
  · exact c3_amended_denial_status_codes.1 baseDb 1 {} {} "a" "b" (by decide) rfl
  · exact (c3_amended_denial_status_codes.2 otherPublishedDb otherPublishedDb 2
      { status := some "private" } editorNoEditPosts
      "2024-06-01 12:00:00" "2024-06-01 12:00:00" _ rfl).2 rfl

/-- The text section never sets status or date columns. -/
lemma prepareText_frame (body : PostUpdateInput) :
    (prepareText body).post_status = none ∧
    (prepareText body).post_date = none ∧
    (prepareText body).post_date_gmt = none := by
  unfold prepareText
  split <;> split <;> split <;> exact ⟨rfl, rfl, rfl⟩

/-- The date section never touches the status column. -/
lemma prepareDates_status (db : Db) (body : PostUpdateInput)
    (data : WpPostUpdateData) :
    (prepareDates db body data).post_status = data.post_status := by
  unfold prepareDates
  split
  · rfl
  · split <;> rfl
  · split
    · rfl
    · split <;> rfl
    · rfl

/-- The slug section never touches status or date columns. -/
lemma prepareSlug_frame (body : PostUpdateInput) (data : WpPostUpdateData) :
    (prepareSlug body data).post_status = data.post_status ∧
    (prepareSlug body data).post_date = data.post_date ∧
    (prepareSlug body data).post_date_gmt = data.post_date_gmt := by
  unfold prepareSlug
  split <;> exact ⟨rfl, rfl, rfl⟩

/-- The author section never touches status or date columns. -/
lemma prepareAuthor_ok_frame {db : Db} {body : PostUpdateInput}
    {user : AuthenticatedUser} {data d' : WpPostUpdateData}
    (h : prepareAuthor db body user data = .ok d') :
    d'.post_status = data.post_status ∧ d'.post_date = data.post_date ∧
    d'.post_date_gmt = data.post_date_gmt := by
  unfold prepareAuthor at h
  split at h
  · split at h
    · exact Except.noConfusion h
    · injection h with h
      subst h
      exact ⟨rfl, rfl, rfl⟩
  · injection h with h
    subst h
    exact ⟨rfl, rfl, rfl⟩

/-- The password section never touches status or date columns. -/
lemma preparePassword_ok_frame {db : Db} {body : PostUpdateInput}
    {post : PostRow} {data d' : WpPostUpdateData}
    (h : preparePassword db body post data = .ok d') :
    d'.post_status = data.post_status ∧ d'.post_date = data.post_date ∧
    d'.post_date_gmt = data.post_date_gmt := by
  unfold preparePassword at h
  split at h
  · split at h
    · split at h
      · exact Except.noConfusion h
      · split at h
        · exact Except.noConfusion h
        · injection h with h
          subst h
          exact ⟨rfl, rfl, rfl⟩
    · injection h with h
      subst h
      exact ⟨rfl, rfl, rfl⟩
  · injection h with h
    subst h
    exact ⟨rfl, rfl, rfl⟩

/-- The parent section never touches status or date columns. -/
lemma prepareParent_ok_frame {db : Db} {body : PostUpdateInput}
    {data d' : WpPostUpdateData}
    (h : prepareParent db body data = .ok d') :
    d'.post_status = data.post_status ∧ d'.post_date = data.post_date ∧
    d'.post_date_gmt = data.post_date_gmt := by
  unfold prepareParent at h
  split at h
  · split at h
    · injection h with h
      subst h
      exact ⟨rfl, rfl, rfl⟩
    · split at h
      · exact Except.noConfusion h
      · injection h with h
        subst h
        exact ⟨rfl, rfl, rfl⟩
  · injection h with h
    subst h
    exact ⟨rfl, rfl, rfl⟩

/-- The tail section never touches status or date columns. -/
lemma prepareTail_frame (body : PostUpdateInput) (data : WpPostUpdateData) :
    (prepareTail body data).post_status = data.post_status ∧
    (prepareTail body data).post_date = data.post_date ∧
    (prepareTail body data).post_date_gmt = data.post_date_gmt := by
  unfold prepareTail
  split <;> split <;> split <;> exact ⟨rfl, rfl, rfl⟩

/-- A successful preparation factors through the status step, and its
status and date columns are exactly those produced by the status and date
sections. -/
lemma prepare_ok_chain {db : Db} {body : PostUpdateInput} {post : PostRow}
    {user : AuthenticatedUser} {d : WpPostUpdateData}
    (h : prepareItemForDatabase db body post user = .ok d) :
    ∃ d1, prepareStatus body post user (prepareText body) = .ok d1 ∧
      d.post_status = (prepareDates db body d1).post_status ∧
      d.post_date = (prepareDates db body d1).post_date ∧
      d.post_date_gmt = (prepareDates db body d1).post_date_gmt := by
  unfold prepareItemForDatabase at h
  split at h
  · exact Except.noConfusion h
  · rename_i d1 h1
    split at h
    · exact Except.noConfusion h
    · rename_i d2 h2
      split at h
      · exact Except.noConfusion h
      · rename_i d3 h3
        split at h
        · exact Except.noConfusion h
        · split at h
          · exact Except.noConfusion h
          · rename_i d4 h4
            injection h with h
            subst h
            obtain ⟨ht1, ht2, ht3⟩ := prepareTail_frame body d4
            obtain ⟨hp1, hp2, hp3⟩ := prepareParent_ok_frame h4
            obtain ⟨hw1, hw2, hw3⟩ := preparePassword_ok_frame h3
            obtain ⟨ha1, ha2, ha3⟩ := prepareAuthor_ok_frame h2
            obtain ⟨hs1, hs2, hs3⟩ :=
              prepareSlug_frame body (prepareDates db body d1)
            refine ⟨d1, h1, ?_, ?_, ?_⟩
            · rw [ht1, hp1, hw1, ha1, hs1]
            · rw [ht2, hp2, hw2, ha2, hs2]
            · rw [ht3, hp3, hw3, ha3, hs3]

/-- A provided status equal to the stored one skips the normalizer. -/
lemma prepareStatus_of_eq {body : PostUpdateInput} {post : PostRow}
    {user : AuthenticatedUser} {st : String} (data : WpPostUpdateData)
    (hst : body.status = some st) (he : st = post.post_status) :
    prepareStatus body post user data = .ok data := by
  unfold prepareStatus
  rw [hst]
  simp [he]

/-- A provided status differing from the stored one goes through the
normalizer. -/
lemma prepareStatus_of_ne {body : PostUpdateInput} {post : PostRow}
    {user : AuthenticatedUser} {st : String} (data : WpPostUpdateData)
    (hst : body.status = some st) (hne : st ≠ post.post_status) :
    prepareStatus body post user data =
      match validateAndNormalizeStatus st user with
      | .error e => .error e
      | .ok s => .ok { data with post_status := some s } := by
  unfold prepareStatus
  simp only [hst]
  rw [if_pos (bne_iff_ne.mpr hne)]

/-- C9: the schema accepts status "trash", but the normalizer has no trash
case, so for every principal a patch setting status="trash" on a post not
already trashed prepares post_status = "draft" — the post is saved as a
draft, not trashed. -/
theorem c9_trash_status_prepares_draft (db : Db) (body : PostUpdateInput)
    (post : PostRow) (user : AuthenticatedUser) (d : WpPostUpdateData)
    (hst : body.status = some "trash") (hne : post.post_status ≠ "trash")
    (hprep : prepareItemForDatabase db body post user = .ok d) :
    statusEnum.contains "trash" = true ∧
    validateAndNormalizeStatus "trash" user = .ok "draft" ∧
    d.post_status = some "draft" := by
  refine ⟨rfl, rfl, ?_⟩
  obtain ⟨d1, h1, hstat, _, _⟩ := prepare_ok_chain hprep
  rw [prepareStatus_of_ne (prepareText body) hst (Ne.symm hne)] at h1
  injection h1 with h1
  subst h1
  rw [hstat, prepareDates_status]

/-- C9 witness: the theorem at a concrete trash patch on a draft post. -/
theorem c9_witness :
    statusEnum.contains "trash" = true ∧
    validateAndNormalizeStatus "trash" ownerUser = .ok "draft" ∧
    ({ post_status := some "draft" } : WpPostUpdateData).post_status =
      some "draft" :=
  c9_trash_status_prepares_draft baseDb { status := some "trash" } basePost
    ownerUser { post_status := some "draft" } rfl (by decide) rfl

/-- The row transform preserves the primary key. -/
lemma applyUpdateRow_ID (r : PostRow) (d : WpPostUpdateData) (nL nU : String) :
    (applyUpdateRow r d nL nU).ID = r.ID := by
  rw [applyUpdateRow, applyClausesA_eq, applyClausesB_eq]

/-- The row transform always writes the local modified timestamp. -/
lemma applyUpdateRow_post_modified (r : PostRow) (d : WpPostUpdateData)
    (nL nU : String) : (applyUpdateRow r d nL nU).post_modified = nL := by
  rw [applyUpdateRow, applyClausesB_eq]

/-- The row transform changes the row whenever the local timestamp moves. -/
lemma applyUpdateRow_ne (r : PostRow) (d : WpPostUpdateData) {nL : String}
    (nU : String) (hnow : nL ≠ r.post_modified) :
    applyUpdateRow r d nL nU ≠ r := by
  intro hEq
  exact hnow (by rw [← hEq, applyUpdateRow_post_modified])

/-- find? over the per-row update map: the first matching row becomes its
transform when the transform preserves the key. -/
lemma find?_map_update (l : List PostRow) (pid : Int) (f : PostRow → PostRow)
    (hf : ∀ p, (f p).ID = p.ID) (post : PostRow)
    (h : l.find? (fun p => p.ID == pid) = some post) :
    (l.map (fun p => if p.ID == pid then f p else p)).find?
      (fun p => p.ID == pid) = some (f post) := by
  induction l with
  | nil => simp at h
  | cons a l ih =>
    rw [List.map_cons]
    rw [List.find?_cons] at h
    by_cases ha : (a.ID == pid) = true
    · rw [ha] at h
      injection h with h
      rw [if_pos ha, List.find?_cons]
      have hfa : ((f a).ID == pid) = true := by rw [hf]; exact ha
      rw [hfa, h]
    · rw [Bool.not_eq_true] at ha
      rw [ha] at h
      rw [if_neg (by simp [ha]), List.find?_cons, ha]
      exact ih h

/-- getPostById after the updatePost write: the found row is the prior row
transformed. -/
lemma getPostById_map_update {db : Db} {pid : Int} {post : PostRow}
    (d : WpPostUpdateData) (nL nU : String)
    (h : getPostById db pid = some post) :
    getPostById
      { db with posts := db.posts.map (fun p =>
          if p.ID == pid then applyUpdateRow p d nL nU else p) } pid =
      some (applyUpdateRow post d nL nU) := by
  unfold getPostById at h ⊢
  exact find?_map_update db.posts pid
    (fun p => applyUpdateRow p d nL nU) (fun p => applyUpdateRow_ID p d nL nU)
    post h

/-- The affectedRows test of updatePost succeeds whenever the target row
exists and the local timestamp moves. -/
lemma updatePost_changed {db : Db} {pid : Int} {post : PostRow}
    (d : WpPostUpdateData) {nL : String} (nU : String)
    (h : getPostById db pid = some post) (hnow : nL ≠ post.post_modified) :
    db.posts.any (fun p => p.ID == pid && (applyUpdateRow p d nL nU != p))
      = true := by
  unfold getPostById at h
  refine List.any_eq_true.mpr ⟨post, List.mem_of_find?_eq_some h, ?_⟩
  have hid0 := List.find?_some h
  have hid : (post.ID == pid) = true := hid0
  rw [hid, Bool.true_and]
  exact bne_iff_ne.mpr (applyUpdateRow_ne post d nU hnow)

/-- C10: a patch whose status equals the stored status skips the status
normalizer entirely — the prepared update set has no post_status column
and no cannot-publish denial can arise from preparation — and in
particular a principal who may edit an own published post but lacks
publish_posts can resend status="publish" and the update succeeds. -/
theorem c10_equal_status_skips_normalizer :
    (∀ (db : Db) (body : PostUpdateInput) (post : PostRow)
       (user : AuthenticatedUser) (st : String) (d : WpPostUpdateData),
       body.status = some st → st = post.post_status →
       prepareItemForDatabase db body post user = .ok d →
       d.post_status = none) ∧
    (∀ (db : Db) (body : PostUpdateInput) (post : PostRow)
       (user : AuthenticatedUser) (st : String) (e : WpErr),
       body.status = some st → st = post.post_status →
       prepareItemForDatabase db body post user = .error e →
       e.code ≠ "rest_cannot_publish") ∧
    (∀ (db : Db) (pid : Int) (post : PostRow) (user : AuthenticatedUser)
       (nowL nowU : String),
       getPostById db pid = some post → post.post_type = "post" →
       post.post_status = "publish" →
       checkUpdatePermission user post = true →
       user.hasCap "publish_posts" = false →
       nowL ≠ post.post_modified →
       ∃ resp, (handlePostUpdate db pid { status := some "publish" } user
         nowL nowU).2 = .ok resp) := by
  refine ⟨?_, ?_, ?_⟩
  · intro db body post user st d hst he hprep
    obtain ⟨d1, h1, hstat, _, _⟩ := prepare_ok_chain hprep
    rw [prepareStatus_of_eq (prepareText body) hst he] at h1
    injection h1 with h1
    subst h1
    rw [hstat, prepareDates_status]
    exact (prepareText_frame body).1
  · intro db body post user st e hst he hprep
    unfold prepareItemForDatabase at hprep
    split at hprep
    · rename_i e1 h1
      rw [prepareStatus_of_eq (prepareText body) hst he] at h1
      exact Except.noConfusion h1
    · split at hprep
      · rename_i h2
        injection hprep with hprep
        subst hprep
        have h3 := prepareAuthor_error_shape h2
        subst h3
        decide
      · split at hprep
        · rename_i h2
          injection hprep with hprep
          subst hprep
          obtain ⟨hc, _⟩ := preparePassword_error_shape h2
          intro hp
          exact absurd (hc.symm.trans hp) (by decide)
        · split at hprep
          · rename_i h2
            injection hprep with hprep
            subst hprep
            have h3 := prepareStickyConflict_error_shape h2
            subst h3
            decide
          · split at hprep
            · rename_i h2
              injection hprep with hprep
              subst hprep
              have h3 := prepareParent_error_shape h2
              subst h3
              decide
            · exact Except.noConfusion hprep
  · intro db pid post user nowL nowU hpost hty hpub hcan hnopub hnow
    unfold handlePostUpdate
    have hperm : checkPermissions post { status := some "publish" } user
        = none := by
      unfold checkPermissions checkAssignTermsPermission
      rw [hcan]
      rfl
    have hprep : prepareItemForDatabase db { status := some "publish" }
        post user = .ok {} := by
      unfold prepareItemForDatabase
      rw [prepareStatus_of_eq (prepareText { status := some "publish" })
        rfl hpub.symm]
      rfl
    simp only [hpost]
    rw [if_neg (by simp [hty])]
    simp only [hperm, hprep, persistAndRespond, slugAdjusted, updatePost,
      updatePost_changed ({} : WpPostUpdateData) nowU hpost hnow,
      applySideEffects, applyFeaturedStep, applyFormatStep, applyTailSteps,
      applyStickyStep, applyTemplateStep, applyMetaStep, handleTerms,
      handleTermsCatStep, handleTermsTagStep,
      getPostById_map_update ({} : WpPostUpdateData) nowL nowU hpost]
    exact ⟨_, rfl⟩

/-- C10 witness: the end-to-end part at a concrete store — the owner of a
published post, holding only edit_published_posts, resends
status="publish" and receives a success response. -/
theorem c10_witness :
    ∃ resp, (handlePostUpdate ownPublishedDb 1 { status := some "publish" }
      ownPublishedEditor "2024-06-01 12:00:00" "2024-06-01 12:00:00").2 =
        .ok resp :=
  c10_equal_status_skips_normalizer.2.2 ownPublishedDb 1 ownPublishedPost
    ownPublishedEditor "2024-06-01 12:00:00" "2024-06-01 12:00:00"
    rfl rfl rfl (by decide) (by decide) (by decide)

/-- A null date resets both columns to the zero-date sentinel. -/
lemma prepareDates_of_date_null {db : Db} {body : PostUpdateInput}
    (data : WpPostUpdateData) (hd : body.date = some none) :
    (prepareDates db body data).post_date = some zeroDate ∧
    (prepareDates db body data).post_date_gmt = some zeroDate := by
  refine ⟨?_, ?_⟩ <;>
    · unfold prepareDates
      simp only [hd]

/-- A null date_gmt with no date resets both columns to the sentinel. -/
lemma prepareDates_of_dateGmt_null {db : Db} {body : PostUpdateInput}
    (data : WpPostUpdateData) (hd : body.date = none)
    (hg : body.date_gmt = some none) :
    (prepareDates db body data).post_date = some zeroDate ∧
    (prepareDates db body data).post_date_gmt = some zeroDate := by
  refine ⟨?_, ?_⟩ <;>
    · unfold prepareDates
      simp only [hd, hg]

/-- A parseable local date writes itself and UTC derived by subtracting
the site offset, whatever date_gmt holds. -/
lemma prepareDates_of_date {db : Db} {body : PostUpdateInput}
    (data : WpPostUpdateData) {ds : String} {t : Int}
    (hd : body.date = some (some ds)) (ht : jsParseDate ds = some t) :
    (prepareDates db body data).post_date = some (formatMysqlDatetime t) ∧
    (prepareDates db body data).post_date_gmt =
      some (formatMysqlDatetime (t - getGmtOffset db * 60 * 60 * 1000)) := by
  refine ⟨?_, ?_⟩ <;>
    · unfold prepareDates restGetDateWithGmt
      simp only [hd]
      rw [ht]
      rfl

/-- A parseable GMT date with no local date writes itself as UTC and the
local value derived by adding the site offset. -/
lemma prepareDates_of_dateGmt {db : Db} {body : PostUpdateInput}
    (data : WpPostUpdateData) {ds : String} {t : Int}
    (hd : body.date = none) (hg : body.date_gmt = some (some ds))
    (ht : jsParseDate ds = some t) :
    (prepareDates db body data).post_date =
      some (formatMysqlDatetime (t + getGmtOffset db * 60 * 60 * 1000)) ∧
    (prepareDates db body data).post_date_gmt = some (formatMysqlDatetime t) := by
  refine ⟨?_, ?_⟩ <;>
    · unfold prepareDates restGetDateWithGmt
      simp only [hd, hg]
      rw [ht]
      rfl

/-- C7: exactly one date-derivation path runs per request, date taking
precedence over date_gmt; a local date stores itself with UTC derived by
subtracting the site offset, a GMT date stores itself with local derived
by adding it; a null in the chosen field resets both columns to the
zero-date sentinel; and the response reads zero-date columns back as null
date and date_gmt. -/
theorem c7_date_paths (db : Db) (body : PostUpdateInput) (post : PostRow)
    (user : AuthenticatedUser) (d : WpPostUpdateData)
    (hprep : prepareItemForDatabase db body post user = .ok d) :
    (body.date = some none →
      d.post_date = some zeroDate ∧ d.post_date_gmt = some zeroDate) ∧
    (body.date = none → body.date_gmt = some none →
      d.post_date = some zeroDate ∧ d.post_date_gmt = some zeroDate) ∧
    (∀ ds t, body.date = some (some ds) → jsParseDate ds = some t →
      d.post_date = some (formatMysqlDatetime t) ∧
      d.post_date_gmt =
        some (formatMysqlDatetime (t - getGmtOffset db * 60 * 60 * 1000))) ∧
    (∀ ds t, body.date = none → body.date_gmt = some (some ds) →
      jsParseDate ds = some t →
      d.post_date =
        some (formatMysqlDatetime (t + getGmtOffset db * 60 * 60 * 1000)) ∧
      d.post_date_gmt = some (formatMysqlDatetime t)) ∧
    (∀ (db2 : Db) (p : PostRow) (ctx url : String) (off : Int),
      p.post_date = zeroDate → p.post_date_gmt = zeroDate →
      (buildPostResponse db2 p ctx url off).date = none ∧
      (buildPostResponse db2 p ctx url off).date_gmt = none) := by
  obtain ⟨d1, h1, hst, hdt, hgt⟩ := prepare_ok_chain hprep
  refine ⟨?_, ?_, ?_, ?_, ?_⟩
  · intro hd
    rw [hdt, hgt]
    exact prepareDates_of_date_null d1 hd
  · intro hd hg
    rw [hdt, hgt]
    exact prepareDates_of_dateGmt_null d1 hd hg
  · intro ds t hd ht
    rw [hdt, hgt]
    exact prepareDates_of_date d1 hd ht
  · intro ds t hd hg ht
    rw [hdt, hgt]
    exact prepareDates_of_dateGmt d1 hd hg ht
  · intro db2 p ctx url off hpd hpg
    unfold buildPostResponse
    constructor
    · show mysqlToRfc3339 p.post_date = none
      rw [hpd]
      rfl
    · show prepareDateGmt p.post_date_gmt p.post_date off = none
      rw [hpd, hpg]
      rfl

/-- C7 witness: a +2h site, local date 2024-01-15T10:30:00 stores local
10:30 and UTC 08:30; a zero-date row reads back null dates. -/
theorem c7_witness :
    (({ post_date := some "2024-01-15 10:30:00",
        post_date_gmt := some "2024-01-15 08:30:00" } :
          WpPostUpdateData).post_date =
      some (formatMysqlDatetime 1705314600000) ∧
     ({ post_date := some "2024-01-15 10:30:00",
        post_date_gmt := some "2024-01-15 08:30:00" } :
          WpPostUpdateData).post_date_gmt =
      some (formatMysqlDatetime
        (1705314600000 - getGmtOffset dbOffset2 * 60 * 60 * 1000))) ∧
    ((buildPostResponse baseDb zeroDatePost "edit" "http://localhost" 0).date
        = none ∧
     (buildPostResponse baseDb zeroDatePost "edit" "http://localhost" 0).date_gmt
        = none) := by
  have h := c7_date_paths dbOffset2
    { date := some (some "2024-01-15T10:30:00") } basePost ownerUser
    { post_date := some "2024-01-15 10:30:00",
      post_date_gmt := some "2024-01-15 08:30:00" } rfl
  exact ⟨h.2.2.1 "2024-01-15T10:30:00" 1705314600000 rfl rfl,
    h.2.2.2.2 baseDb zeroDatePost "edit" "http://localhost" 0 rfl rfl⟩

/-- Looking up the replaced option name yields the new value. -/
lemma replaceOption_find?_snd (l : List (String × OptVal)) (n : String)
    (v : OptVal) (h : l.any (fun o => o.1 == n) = true) :
    ((replaceOption l n v).find? (fun o => o.1 == n)).map (fun o => o.2)
      = some v := by
  induction l with
  | nil => simp at h
  | cons a l ih =>
    unfold replaceOption
    by_cases hb : (a.1 == n) = true
    · rw [if_pos hb]
      rw [List.find?_cons]
      have hb' : ((a.1, v).1 == n) = true := hb
      rw [hb']
      rfl
    · rw [if_neg hb, List.find?_cons]
      rw [Bool.not_eq_true] at hb
      rw [hb]
      apply ih
      simp only [List.any_cons, hb, Bool.false_or] at h
      exact h

/-- Reading back an upserted option yields the written value. -/
lemma getOption_updateOption (db : Db) (n : String) (v : OptVal) :
    getOption (updateOption db n v) n = some v := by
  unfold updateOption getOption
  by_cases h : db.options.any (fun o => o.1 == n) = true
  · rw [if_pos h]
    exact replaceOption_find?_snd db.options n v h
  · rw [if_neg h]
    have hnone : db.options.find? (fun o => o.1 == n) = none := by
      rw [List.find?_eq_none]
      intro x hx hpx
      exact h (List.any_eq_true.mpr ⟨x, hx, hpx⟩)
    show ((db.options ++ [(n, v)]).find? (fun o => o.1 == n)).map
      (fun o => o.2) = some v
    rw [List.find?_append, hnone]
    simp

/-- Reading the registry right after writing it filters to the positive
entries. -/
lemma getStickyPosts_setStickyPosts (db : Db) (l : List Int) :
    getStickyPosts (setStickyPosts db l) = l.filter (fun n => 0 < n) := by
  unfold getStickyPosts setStickyPosts
  rw [getOption_updateOption]

/-- Every id the registry read returns is positive. -/
lemma getStickyPosts_pos (db : Db) :
    ∀ x ∈ getStickyPosts db, decide (0 < x) = true := by
  unfold getStickyPosts
  split
  · intro x hx
    exact (List.mem_filter.mp hx).2
  · intro x hx
    simp at hx

/-- C8: the sticky side effect is idempotent — with a positive id and a
duplicate-free registry, sticky=true on an already-registered id performs
no write at all, applying sticky=true twice leaves exactly one entry for
the id, and sticky=false on an absent id performs no write. -/
theorem c8_sticky_idempotent (db : Db) (pid : Int) (hpos : 0 < pid)
    (hcount : (getStickyPosts db).count pid ≤ 1) :
    (pid ∈ getStickyPosts db → handleStickyStatus db pid true = db) ∧
    (getStickyPosts (handleStickyStatus (handleStickyStatus db pid true)
      pid true)).count pid = 1 ∧
    (pid ∉ getStickyPosts db → handleStickyStatus db pid false = db) := by
  have hTrueMem : ∀ db2 : Db, pid ∈ getStickyPosts db2 →
      handleStickyStatus db2 pid true = db2 := by
    intro db2 hmem
    unfold handleStickyStatus
    rw [if_pos rfl, if_neg (by simp [hmem])]
  refine ⟨hTrueMem db, ?_, ?_⟩
  · by_cases hmem : pid ∈ getStickyPosts db
    · rw [hTrueMem db hmem, hTrueMem db hmem]
      have hpos' := List.count_pos_iff.mpr hmem
      omega
    · have happ : handleStickyStatus db pid true =
          setStickyPosts db (getStickyPosts db ++ [pid]) := by
        unfold handleStickyStatus
        rw [if_pos rfl, if_pos (by simp [hmem])]
      have hfilter : (getStickyPosts db ++ [pid]).filter (fun n => 0 < n)
          = getStickyPosts db ++ [pid] := by
        rw [List.filter_eq_self]
        intro x hx
        rcases List.mem_append.mp hx with hx | hx
        · exact getStickyPosts_pos db x hx
        · rw [List.mem_singleton.mp hx]
          simpa using hpos
      have hread : getStickyPosts (handleStickyStatus db pid true)
          = getStickyPosts db ++ [pid] := by
        rw [happ, getStickyPosts_setStickyPosts, hfilter]
      have hmem2 : pid ∈ getStickyPosts (handleStickyStatus db pid true) := by
        rw [hread]
        exact List.mem_append_right _ (List.mem_singleton.mpr rfl)
      rw [hTrueMem _ hmem2, hread, List.count_append]
      rw [List.count_eq_zero.mpr hmem]
      simp [List.count_singleton]
  · intro hnmem
    unfold handleStickyStatus
    rw [if_neg (by simp), if_neg (by simp [hnmem])]

/-- C8 witness: the theorem at a registry already holding post 7. -/
theorem c8_witness :
    (1 ∈ getStickyPosts stickyDb → handleStickyStatus stickyDb 1 true
      = stickyDb) ∧
    (getStickyPosts (handleStickyStatus (handleStickyStatus stickyDb 1 true)
      1 true)).count 1 = 1 ∧
    (1 ∉ getStickyPosts stickyDb → handleStickyStatus stickyDb 1 false
      = stickyDb) :=
  c8_sticky_idempotent stickyDb 1 (by decide) (by decide)

/-- With a tolerable status and author, a sticky/password conflict makes
the whole preparation fail with a 400 rest_invalid_field error. -/
lemma prepare_sticky_password_conflict
    {db : Db} {body : PostUpdateInput} {post : PostRow}
    {user : AuthenticatedUser}
    (hstat : ∀ st, body.status = some st → st ≠ post.post_status →
      ∃ v, validateAndNormalizeStatus st user = .ok v)
    (hauth : ∀ a, body.author = some a → a = user.id ∨ userExists db a = true)
    (hcond :
      (body.sticky = some true ∧
        ((∃ pw, body.password = some pw ∧ pw ≠ "") ∨ post.post_password ≠ "")) ∨
      ((∃ pw, body.password = some pw ∧ pw ≠ "") ∧
        (body.sticky = some true ∨ isSticky db post.ID = true))) :
    ∃ e, prepareItemForDatabase db body post user = .error e ∧
      e.code = "rest_invalid_field" ∧ e.status = 400 := by
  have hst : ∃ d1, prepareStatus body post user (prepareText body) = .ok d1 := by
    rcases he : prepareStatus body post user (prepareText body) with e1 | d1
    · obtain ⟨st, hbs, hne, hv⟩ := prepareStatus_error_shape he
      obtain ⟨v, hv2⟩ := hstat st hbs hne
      rw [hv] at hv2
      exact Except.noConfusion hv2
    · exact ⟨d1, rfl⟩
  obtain ⟨d1, hd1⟩ := hst
  have hauthOk : ∀ data, ∃ d2, prepareAuthor db body user data = .ok d2 := by
    intro data
    rcases he : prepareAuthor db body user data with e1 | d2
    · obtain ⟨a, hba, hne, hfalse⟩ := prepareAuthor_error_inputs he
      rcases hauth a hba with h | h
      · exact absurd h hne
      · rw [h] at hfalse
        exact Bool.noConfusion hfalse
    · exact ⟨d2, rfl⟩
  obtain ⟨d2, hd2⟩ := hauthOk (prepareSlug body (prepareDates db body d1))
  by_cases hpwCase : ∃ pw, body.password = some pw ∧ pw ≠ ""
  · obtain ⟨pw, hbp, hne⟩ := hpwCase
    by_cases hsk : body.sticky = some true
    · have hpassErr : preparePassword db body post d2 =
          .error ⟨"rest_invalid_field",
            "A post can not be sticky and have a password.", 400⟩ := by
        unfold preparePassword
        simp only [hbp]
        rw [if_pos (bne_iff_ne.mpr hne), if_pos (by simp [hsk])]
      refine ⟨⟨"rest_invalid_field",
        "A post can not be sticky and have a password.", 400⟩, ?_, rfl, rfl⟩
      unfold prepareItemForDatabase
      simp only [hd1, hd2, hpassErr]
    · have hstk : isSticky db post.ID = true := by
        rcases hcond with ⟨hsk', _⟩ | ⟨_, hst2⟩
        · exact absurd hsk' hsk
        · rcases hst2 with hsk' | hstk
          · exact absurd hsk' hsk
          · exact hstk
      have hpassErr : preparePassword db body post d2 =
          .error ⟨"rest_invalid_field",
            "A sticky post can not be password protected.", 400⟩ := by
        unfold preparePassword
        simp only [hbp]
        rw [if_pos (bne_iff_ne.mpr hne),
          if_neg (by simp [beq_iff_eq, hsk]), if_pos hstk]
      refine ⟨⟨"rest_invalid_field",
        "A sticky post can not be password protected.", 400⟩, ?_, rfl, rfl⟩
      unfold prepareItemForDatabase
      simp only [hd1, hd2, hpassErr]
  · have hskpp : body.sticky = some true ∧ post.post_password ≠ "" := by
      rcases hcond with ⟨hsk, hpw⟩ | ⟨hpwEx, _⟩
      · rcases hpw with hpwEx | hpp
        · exact absurd hpwEx hpwCase
        · exact ⟨hsk, hpp⟩
      · exact absurd hpwEx hpwCase
    have hpwOk : ∃ d3, preparePassword db body post d2 = .ok d3 := by
      rcases he : preparePassword db body post d2 with e1 | d3
      · exact absurd (preparePassword_error_inputs he) hpwCase
      · exact ⟨d3, rfl⟩
    obtain ⟨d3, hd3⟩ := hpwOk
    have hstErr : prepareStickyConflict body post =
        .error ⟨"rest_invalid_field",
          "A password protected post can not be set to sticky.", 400⟩ := by
      unfold prepareStickyConflict
      rw [if_pos (by simp [hskpp.1, hskpp.2])]
    refine ⟨⟨"rest_invalid_field",
      "A password protected post can not be set to sticky.", 400⟩, ?_, rfl, rfl⟩
    unfold prepareItemForDatabase
    simp only [hd1, hd2, hd3, hstErr]

/-- C5: a patch that sets sticky=true while the item has or is being given
a non-empty password, or sets a non-empty password while the item is or is
being made sticky, is rejected with the 400 rest_invalid_field error with
no change to the store — provided the request would otherwise proceed
(permission checks pass, status and author preparation succeed).  The
parsed patch is an object, so field order in the payload cannot matter. -/
theorem c5_sticky_password_rejected_before_persist
    (db : Db) (pid : Int) (body : PostUpdateInput)
    (user : AuthenticatedUser) (post : PostRow) (nowL nowU : String)
    (hpost : getPostById db pid = some post) (hty : post.post_type = "post")
    (hperm : checkPermissions post body user = none)
    (hstat : ∀ st, body.status = some st → st ≠ post.post_status →
      ∃ v, validateAndNormalizeStatus st user = .ok v)
    (hauth : ∀ a, body.author = some a → a = user.id ∨ userExists db a = true)
    (hcond :
      (body.sticky = some true ∧
        ((∃ pw, body.password = some pw ∧ pw ≠ "") ∨ post.post_password ≠ "")) ∨
      ((∃ pw, body.password = some pw ∧ pw ≠ "") ∧
        (body.sticky = some true ∨ isSticky db post.ID = true))) :
    ∃ e, handlePostUpdate db pid body user nowL nowU = (db, .error e) ∧
      e.code = "rest_invalid_field" ∧ e.status = 400 := by
  obtain ⟨e, hpre, hcode, hstatus⟩ :=
    prepare_sticky_password_conflict hstat hauth hcond
  refine ⟨e, ?_, hcode, hstatus⟩
  unfold handlePostUpdate
  simp only [hpost]
  rw [if_neg (by simp [hty])]
  simp only [hperm, hpre]

/-- C5 witness: a fully-capable principal patching sticky=true together
with password="pw" on a plain draft is rejected with 400
rest_invalid_field. -/
theorem c5_witness :
    ∃ e, handlePostUpdate baseDb 1
        { password := some "pw", sticky := some true } adminUser
        "2024-06-01 12:00:00" "2024-06-01 12:00:00" = (baseDb, .error e) ∧
      e.code = "rest_invalid_field" ∧ e.status = 400 :=
  c5_sticky_password_rejected_before_persist baseDb 1
    { password := some "pw", sticky := some true } adminUser basePost
    "2024-06-01 12:00:00" "2024-06-01 12:00:00" rfl rfl rfl
    (fun st h => Option.noConfusion h) (fun a h => Option.noConfusion h)
    (.inl ⟨rfl, .inl ⟨"pw", rfl, by decide⟩⟩)

/-- A fold of posts-preserving steps preserves the posts table. -/
lemma foldl_posts {α : Type} {f : Db → α → Db}
    (hf : ∀ db a, (f db a).posts = db.posts) :
    ∀ (l : List α) (db : Db), (l.foldl f db).posts = db.posts := by
  intro l
  induction l with
  | nil => intro db; rfl
  | cons a l ih =>
    intro db
    rw [List.foldl_cons, ih, hf]

/-- The term-insert loop never touches the posts table. -/
lemma setObjectTermsInsert_posts (oid : Int) (tax : String) (db : Db)
    (termId : Int) : (setObjectTermsInsert oid tax db termId).posts = db.posts := by
  unfold setObjectTermsInsert
  split
  · rfl
  · split <;> rfl

/-- Term replacement never touches the posts table. -/
lemma setObjectTerms_posts (db : Db) (oid : Int) (termIds : List Int)
    (tax : String) : (setObjectTerms db oid termIds tax).posts = db.posts := by
  unfold setObjectTerms
  rw [foldl_posts (setObjectTermsInsert_posts oid tax)]

/-- Meta upserts never touch the posts table. -/
lemma updatePostMeta_posts (db : Db) (pid : Int) (key v : String) :
    (updatePostMeta db pid key v).posts = db.posts := by
  unfold updatePostMeta
  split <;> rfl

/-- Meta deletion never touches the posts table. -/
lemma deletePostMeta_posts (db : Db) (pid : Int) (key : String) :
    (deletePostMeta db pid key).posts = db.posts := rfl

/-- Option upserts never touch the posts table. -/
lemma updateOption_posts (db : Db) (n : String) (v : OptVal) :
    (updateOption db n v).posts = db.posts := by
  unfold updateOption
  split <;> rfl

/-- The sticky write never touches the posts table. -/
lemma setStickyPosts_posts (db : Db) (l : List Int) :
    (setStickyPosts db l).posts = db.posts :=
  updateOption_posts db "sticky_posts" (.intList l)

/-- The sticky side effect never touches the posts table. -/
lemma handleStickyStatus_posts (db : Db) (pid : Int) (sticky : Bool) :
    (handleStickyStatus db pid sticky).posts = db.posts := by
  unfold handleStickyStatus
  split <;>
    · dsimp only
      split <;> first
        | rfl
        | apply setStickyPosts_posts

/-- The format side effect never touches the posts table. -/
lemma handlePostFormat_posts (db : Db) (pid : Int) (format : String) :
    (handlePostFormat db pid format).posts = db.posts := by
  unfold handlePostFormat
  split
  · exact setObjectTerms_posts db pid [] "post_format"
  · split
    · exact setObjectTerms_posts db pid _ "post_format"
    · rfl

/-- The featured-media side effect never touches the posts table. -/
lemma handleFeaturedMedia_posts (db : Db) (fm pid : Int) :
    ((handleFeaturedMedia db fm pid).1).posts = db.posts := by
  unfold handleFeaturedMedia
  split
  · split
    · rfl
    · exact updatePostMeta_posts db pid "_thumbnail_id" _
  · rfl

/-- Step 7a never touches the posts table. -/
lemma applyFormatStep_posts (db : Db) (pid : Int) (body : PostUpdateInput) :
    (applyFormatStep db pid body).posts = db.posts := by
  unfold applyFormatStep
  split
  · exact handlePostFormat_posts db pid _
  · rfl

/-- Step 7b never touches the posts table. -/
lemma applyFeaturedStep_posts (db : Db) (pid : Int) (body : PostUpdateInput) :
    ((applyFeaturedStep db pid body).1).posts = db.posts := by
  unfold applyFeaturedStep
  split
  · exact handleFeaturedMedia_posts db _ pid
  · rfl

/-- One meta entry never touches the posts table. -/
lemma applyMetaEntry_posts (pid : Int) (db : Db) (kv : String × Option String) :
    (applyMetaEntry pid db kv).posts = db.posts := by
  unfold applyMetaEntry
  split
  · exact updatePostMeta_posts db pid _ _
  · rfl

/-- Steps 7c–7f never touch the posts table. -/
lemma applyTailSteps_posts (db : Db) (pid : Int) (body : PostUpdateInput) :
    (applyTailSteps db pid body).posts = db.posts := by
  unfold applyTailSteps applyMetaStep handleTerms handleTermsTagStep
    handleTermsCatStep applyTemplateStep applyStickyStep
  split <;> split <;> split <;> split <;> split <;>
    simp only [applyMetaUpdates, foldl_posts (applyMetaEntry_posts pid),
      setObjectTerms_posts, updatePostMeta_posts, handleStickyStatus_posts]

/-- The whole side-effect stage never touches the posts table. -/
lemma applySideEffects_posts (db : Db) (pid : Int) (body : PostUpdateInput) :
    ((applySideEffects db pid body).1).posts = db.posts := by
  unfold applySideEffects
  split
  · rename_i db2 e heq
    have h1 := applyFeaturedStep_posts (applyFormatStep db pid body) pid body
    rw [heq] at h1
    rw [h1, applyFormatStep_posts]
  · rename_i db2 heq
    have h1 := applyFeaturedStep_posts (applyFormatStep db pid body) pid body
    rw [heq] at h1
    rw [applyTailSteps_posts, h1, applyFormatStep_posts]

/-- The posts table after the persist-and-respond stage is exactly the one
written by the UPDATE statement. -/
lemma persistAndRespond_posts (db : Db) (pid : Int) (body : PostUpdateInput)
    (post : PostRow) (d : WpPostUpdateData) (nL nU : String) (db2 : Db)
    (ok : Bool)
    (hu : updatePost db pid (slugAdjusted db pid post d) nL nU = (db2, ok)) :
    ((persistAndRespond db pid body post d nL nU).1).posts = db2.posts := by
  unfold persistAndRespond
  rw [hu]
  cases ok
  · rfl
  · dsimp only
    split
    · rename_i db3 e heq
      have h1 := applySideEffects_posts db2 pid body
      rw [heq] at h1
      exact h1
    · rename_i db3 heq
      have h1 := applySideEffects_posts db2 pid body
      rw [heq] at h1
      split <;> exact h1

/-- getPostById depends only on the posts table. -/
lemma getPostById_eq_of_posts {X Y : Db} (h : X.posts = Y.posts) (pid : Int) :
    getPostById X pid = getPostById Y pid := by
  unfold getPostById
  rw [h]

/-- The row transform stores the prepared slug when one is present. -/
lemma applyUpdateRow_post_name (r : PostRow) (d : WpPostUpdateData)
    (nL nU : String) :
    (applyUpdateRow r d nL nU).post_name = d.post_name.getD r.post_name := by
  rw [applyUpdateRow, applyClausesB_eq, applyClausesA_eq]

/-- Shape of a successful updatePost call when the target row exists and
the local timestamp moves. -/
lemma updatePost_eq {db : Db} {pid : Int} {post : PostRow}
    (d : WpPostUpdateData) {nL : String} (nU : String)
    (hpost : getPostById db pid = some post) (hnow : nL ≠ post.post_modified) :
    updatePost db pid d nL nU =
      ({ db with posts := db.posts.map (fun p =>
          if p.ID == pid then applyUpdateRow p d nL nU else p) }, true) := by
  unfold updatePost
  rw [updatePost_changed d nU hpost hnow]

/-- The collision loop returns the first free candidate: given enough
fuel to reach a free candidate, the result is candidate n+j where j is
least such that n+j is free. -/
lemma uniquePostSlugAux_spec (db : Db) (desired ty : String) (pid parent : Int) :
    ∀ (fuel n : Nat),
      (∃ k, k < fuel ∧
        checkSlugExists db (slugCandidate desired (n + k)) ty pid parent = false) →
      ∃ j, uniquePostSlugAux db desired ty pid parent fuel n =
          slugCandidate desired (n + j) ∧
        checkSlugExists db (slugCandidate desired (n + j)) ty pid parent = false ∧
        ∀ i, i < j →
          checkSlugExists db (slugCandidate desired (n + i)) ty pid parent = true := by
  intro fuel
  induction fuel with
  | zero =>
    intro n h
    obtain ⟨k, hk, _⟩ := h
    omega
  | succ fuel ih =>
    intro n h
    unfold uniquePostSlugAux
    by_cases hc : checkSlugExists db (slugCandidate desired n) ty pid parent = true
    · rw [if_pos hc]
      have h' : ∃ k, k < fuel ∧
          checkSlugExists db (slugCandidate desired (n + 1 + k)) ty pid parent
            = false := by
        obtain ⟨k, hk, hfree⟩ := h
        match k, hk, hfree with
        | 0, hk, hfree =>
          rw [Nat.add_zero] at hfree
          rw [hfree] at hc
          exact Bool.noConfusion hc
        | k + 1, hk, hfree =>
          exact ⟨k, by omega, by rwa [show n + 1 + k = n + (k + 1) by omega]⟩
      obtain ⟨j, hj1, hj2, hj3⟩ := ih (n + 1) h'
      refine ⟨j + 1, ?_, ?_, ?_⟩
      · rw [hj1]
        congr 1
        omega
      · rwa [show n + (j + 1) = n + 1 + j by omega]
      · intro i hi
        match i, hi with
        | 0, _ =>
          rwa [Nat.add_zero]
        | i + 1, hi =>
          have := hj3 i (by omega)
          rwa [show n + (i + 1) = n + 1 + i by omega]
    · rw [if_neg hc]
      rw [Bool.not_eq_true] at hc
      exact ⟨0, by rw [Nat.add_zero], by rw [Nat.add_zero]; exact hc,
        fun i hi => absurd hi (Nat.not_lt_zero i)⟩

/-- uniquePostSlug returns the first free candidate (the claim's
"first free integer suffix ≥ 2", candidate 0 being the desired slug
itself), scoped by (type, parent) and excluding the item's own id through
checkSlugExists; the stored status plays no role in the check. -/
lemma uniquePostSlug_spec (fuel : Nat) (db : Db) (desired : String)
    (pid : Int) (status ty : String) (parent : Int)
    (h : ∃ k, k < fuel ∧
      checkSlugExists db (slugCandidate desired k) ty pid parent = false) :
    ∃ j, uniquePostSlug fuel db desired pid status ty parent =
        slugCandidate desired j ∧
      checkSlugExists db (slugCandidate desired j) ty pid parent = false ∧
      ∀ i, i < j →
        checkSlugExists db (slugCandidate desired i) ty pid parent = true := by
  unfold uniquePostSlug
  have h0 : ∃ k, k < fuel ∧
      checkSlugExists db (slugCandidate desired (0 + k)) ty pid parent = false := by
    simpa using h
  obtain ⟨j, hj1, hj2, hj3⟩ :=
    uniquePostSlugAux_spec db desired ty pid parent fuel 0 h0
  rw [Nat.zero_add] at hj1 hj2
  refine ⟨j, hj1, hj2, fun i hi => ?_⟩
  have := hj3 i hi
  rwa [Nat.zero_add] at this

/-- C4 counterexample: the claim quantifies over every update supplying a
slug, but the code runs the uniqueness step only when the effective
resulting status is draft or pending.  With post 1 published and post 5
(same type, parent 0) already holding the slug "hello", updating post 1
with slug "hello" succeeds and stores the colliding slug verbatim
instead of "hello-2". -/
theorem c4_counterexample_published_slug_collision_kept :
    checkSlugExists collisionPublishDb "hello" "post" 1 0 = true ∧
    ((handlePostUpdate collisionPublishDb 1 { slug := some "hello" }
        ownPublishedEditor "2024-06-01 12:00:00" "2024-06-01 12:00:00").1.posts.map
      (fun p => (p.ID, p.post_name))) = [(1, "hello"), (5, "hello")] ∧
    (∃ r, (handlePostUpdate collisionPublishDb 1 { slug := some "hello" }
        ownPublishedEditor "2024-06-01 12:00:00" "2024-06-01 12:00:00").2 =
      .ok r) := by
  refine ⟨rfl, rfl, ⟨_, rfl⟩⟩

/-- C4 (amended): for every update that supplies a non-empty slug and
whose effective resulting status is draft or pending, the stored slug is
the first free candidate among slug, slug-2, slug-3, …, where freeness is
uniqueness scoped to (post_type, post_parent) excluding the item's own id
(checkSlugExists ignores status entirely, which is the code's rendering
of "as though the status were publish"). -/
theorem c4_amended_slug_unique_for_draft_pending
    (db : Db) (pid : Int) (body : PostUpdateInput) (user : AuthenticatedUser)
    (post : PostRow) (d : WpPostUpdateData) (s : String) (nowL nowU : String)
    (hpost : getPostById db pid = some post) (hty : post.post_type = "post")
    (hperm : checkPermissions post body user = none)
    (hprep : prepareItemForDatabase db body post user = .ok d)
    (hname : d.post_name = some s) (hs : s ≠ "")
    (heff : effectiveStatusOf d post = "draft" ∨
      effectiveStatusOf d post = "pending")
    (hfree : ∃ k, k < db.posts.length + 1 ∧
      checkSlugExists db (slugCandidate s k) post.post_type pid
        (d.post_parent.getD post.post_parent) = false)
    (hnow : nowL ≠ post.post_modified) :
    ∃ j,
      (getPostById (handlePostUpdate db pid body user nowL nowU).1 pid).map
        (fun p => p.post_name) = some (slugCandidate s j) ∧
      checkSlugExists db (slugCandidate s j) post.post_type pid
        (d.post_parent.getD post.post_parent) = false ∧
      ∀ i, i < j →
        checkSlugExists db (slugCandidate s i) post.post_type pid
          (d.post_parent.getD post.post_parent) = true := by
  obtain ⟨j, hju, hfreej, htaken⟩ := uniquePostSlug_spec (db.posts.length + 1)
    db s pid "publish" post.post_type (d.post_parent.getD post.post_parent)
    hfree
  refine ⟨j, ?_, hfreej, htaken⟩
  unfold handlePostUpdate
  simp only [hpost]
  rw [if_neg (by simp [hty])]
  simp only [hperm, hprep]
  have hadj : slugAdjusted db pid post d =
      { d with post_name := some (uniquePostSlug (db.posts.length + 1) db s
          pid "publish" post.post_type
          (d.post_parent.getD post.post_parent)) } := by
    unfold slugAdjusted
    simp only [hname]
    rw [if_pos (by rcases heff with h | h <;> simp [h, hs])]
  have hu := updatePost_eq (slugAdjusted db pid post d) nowU hpost hnow
  have hposts := persistAndRespond_posts db pid body post d nowL nowU _ _ hu
  rw [getPostById_eq_of_posts hposts pid]
  rw [getPostById_map_update (slugAdjusted db pid post d) nowL nowU hpost]
  rw [Option.map_some']
  rw [applyUpdateRow_post_name, hadj]
  rw [hju]
  rfl

/-- C4 witness: with the draft post 1 and post 5 already holding "hello"
(type post, parent 0), the amended theorem yields the stored slug
"hello-2" (candidate index 1). -/
theorem c4_amended_witness :
    ∃ j,
      (getPostById (handlePostUpdate collisionDraftDb 1
          { slug := some "hello" } ownerUser "2024-06-01 12:00:00"
          "2024-06-01 12:00:00").1 1).map (fun p => p.post_name) =
        some (slugCandidate "hello" j) ∧
      checkSlugExists collisionDraftDb (slugCandidate "hello" j) "post" 1 0
        = false ∧
      ∀ i, i < j →
        checkSlugExists collisionDraftDb (slugCandidate "hello" i) "post" 1 0
          = true :=
  c4_amended_slug_unique_for_draft_pending collisionDraftDb 1
    { slug := some "hello" } ownerUser basePost
    { post_name := some "hello" } "hello" "2024-06-01 12:00:00"
    "2024-06-01 12:00:00" rfl rfl rfl rfl rfl (by decide) (.inl rfl)
    ⟨1, by decide, by decide⟩ (by decide)

end WPost
